import Mathlib

/-!
Verification development for the momo-data SMS-ingestion pipeline.

Python strings are modelled as `List Char`; Python floats produced by
`float(...)` on digit strings are modelled as `ℚ`; fallible Python code
(exceptions caught by the surrounding `try`/`except`) is modelled with
`Option`. Regular-expression searches (`re.search`) are modelled by a
small backtracking engine (`RE`, `reSearch`) with Python's leftmost /
greedy / first-alternative semantics over the character-class patterns
the source uses.
-/

set_option maxRecDepth 10000

/-- Convert a Lean string literal to the `List Char` representation used
throughout for Python strings. -/
def lc (s : String) : List Char := s.toList

/-- Python `str.upper()`, character-wise (ASCII range, as used by the
source's all-ASCII patterns). -/
def pyUpper (s : List Char) : List Char := s.map Char.toUpper

/-- Python `str.lower()`, character-wise (ASCII range). -/
def pyLower (s : List Char) : List Char := s.map Char.toLower

/-- Python substring containment `needle in hay` (empty needle matches). -/
def strIn (needle : List Char) : List Char → Bool
  | [] => needle.isEmpty
  | c :: t => needle.isPrefixOf (c :: t) || strIn needle t

/-- Python whitespace characters recognised by `str.strip()` (ASCII). -/
def isPySpace (c : Char) : Bool :=
  c == ' ' || c == '\t' || c == '\n' || c == '\r' ||
  c == Char.ofNat 11 || c == Char.ofNat 12

/-- Python `str.strip()`: drop leading and trailing whitespace. -/
def pyStrip (s : List Char) : List Char :=
  ((s.dropWhile isPySpace).reverse.dropWhile isPySpace).reverse

/-- Decimal digit test (`\d` over the ASCII inputs of this code base). -/
def isDigitB (c : Char) : Bool := c.isDigit

/-- The character class `[\d,]` used in the amount patterns. -/
def digitComma (c : Char) : Bool := c.isDigit || c == ','

/-- The negated class `[^x]`. -/
def notChar (x : Char) (c : Char) : Bool := c != x

/-- The class `.` of Python regexes (any character except a newline). -/
def dotAny (c : Char) : Bool := c != '\n'

/-- Word character for `\b` boundaries (`[A-Za-z0-9_]` over ASCII input). -/
def isWordChar (c : Char) : Bool := c.isAlphanum || c == '_'

/-- Abstract syntax of the regular expressions the source uses: literals,
single-character classes, greedy `+`/`*`/`{m,n}` over a class, lazy `+?`
over a class, greedy `?`, concatenation, alternation (first alternative
preferred) and numbered capture groups. -/
inductive RE where
  | lit : List Char → RE
  | cls : (Char → Bool) → RE
  | plus : (Char → Bool) → RE
  | star : (Char → Bool) → RE
  | plusLazy : (Char → Bool) → RE
  | rep : Nat → Nat → (Char → Bool) → RE
  | opt : RE → RE
  | cat : RE → RE → RE
  | alt : RE → RE → RE
  | group : Nat → RE → RE

/-- Capture environment: group number paired with the captured text. -/
def Caps := List (Nat × List Char)

/-- Try the continuation after dropping each listed number of characters,
in order; first success wins (backtracking over repetition lengths). -/
def tryDrops (k : List Char → Caps → Option Caps) (s : List Char)
    (caps : Caps) : List Nat → Option Caps
  | [] => none
  | i :: is =>
    match k (s.drop i) caps with
    | some v => some v
    | none => tryDrops k s caps is

/-- Candidate consumption counts for a greedy repetition over a class:
`hi, hi-1, …, lo` where `hi` is capped by the maximal run length. -/
def greedyCounts (lo hi : Nat) : List Nat :=
  (List.range (hi + 1 - lo)).map (fun j => hi - j)

/-- Candidate consumption counts for a lazy repetition: `lo, lo+1, …, hi`. -/
def lazyCounts (lo hi : Nat) : List Nat :=
  (List.range (hi + 1 - lo)).map (fun j => lo + j)

/-- Backtracking matcher in continuation-passing style: `reM r s caps k`
attempts to match `r` at the head of `s` and hands the remaining input
and extended captures to `k`, backtracking on failure. -/
def reM : RE → List Char → Caps → (List Char → Caps → Option Caps) → Option Caps
  | .lit p, s, caps, k => if p.isPrefixOf s then k (s.drop p.length) caps else none
  | .cls c, s, caps, k =>
    match s with
    | [] => none
    | a :: t => if c a then k t caps else none
  | .plus c, s, caps, k =>
    tryDrops k s caps (greedyCounts 1 (s.takeWhile c).length)
  | .star c, s, caps, k =>
    tryDrops k s caps (greedyCounts 0 (s.takeWhile c).length)
  | .plusLazy c, s, caps, k =>
    tryDrops k s caps (lazyCounts 1 (s.takeWhile c).length)
  | .rep lo hi c, s, caps, k =>
    tryDrops k s caps (greedyCounts lo (min hi (s.takeWhile c).length))
  | .opt r, s, caps, k =>
    match reM r s caps k with
    | some v => some v
    | none => k s caps
  | .cat r1 r2, s, caps, k =>
    reM r1 s caps (fun s' caps' => reM r2 s' caps' k)
  | .alt r1 r2, s, caps, k =>
    match reM r1 s caps k with
    | some v => some v
    | none => reM r2 s caps k
  | .group g r, s, caps, k =>
    reM r s caps (fun s' caps' => k s' ((g, s.take (s.length - s'.length)) :: caps'))

/-- Python `re.search`: try the pattern at every start position, leftmost
first, returning the captures of the first successful match. -/
def reSearch (r : RE) (s : List Char) : Option Caps :=
  match reM r s [] (fun _ caps => some caps) with
  | some caps => some caps
  | none =>
    match s with
    | [] => none
    | _ :: t => reSearch r t

/-- `match.group(n)`: the capture of group `n`, `none` when the group did
not participate in the match. -/
def capGet (caps : Caps) (n : Nat) : Option (List Char) :=
  (caps.find? (fun p => p.1 == n)).map (fun p => p.2)

/-- Search and return group 1 (`m.group(1) if m else None`). -/
def search1 (r : RE) (s : List Char) : Option (List Char) :=
  match reSearch r s with
  | none => none
  | some caps => capGet caps 1

/-- Search and return groups 1 and 2. -/
def search2 (r : RE) (s : List Char) : Option (Option (List Char) × Option (List Char)) :=
  match reSearch r s with
  | none => none
  | some caps => some (capGet caps 1, capGet caps 2)

/-- Numeric value of a digit string (most significant first). -/
def natOfDigits (s : List Char) : Nat :=
  s.foldl (fun acc c => acc * 10 + (c.toNat - 48)) 0

/-- Python `float(s)` on the strings this code base feeds it (an optional
integer part and an optional `.`-separated fractional part, at least one
digit in total); `none` models the `ValueError` the source catches. The
value is modelled exactly in `ℚ`. -/
def pyFloat? (s : List Char) : Option ℚ :=
  let ip := s.takeWhile (fun c => c != '.')
  if ip.all isDigitB then
    match s.drop ip.length with
    | [] => if ip.isEmpty then none else some (natOfDigits ip)
    | d :: fp =>
      if d == '.' && fp.all isDigitB && !(ip.isEmpty && fp.isEmpty) then
        some ((natOfDigits ip : ℚ) + (natOfDigits fp : ℚ) / (10 : ℚ) ^ fp.length)
      else none
  else none

/-- `s.replace(',', '')` as applied before `float(...)`. -/
def stripCommas (s : List Char) : List Char := s.filter (fun c => c != ',')

/-- `float(g.replace(',', ''))` under the surrounding `try`. -/
def pyFloatC (s : List Char) : Option ℚ := pyFloat? (stripCommas s)

/-- An optional numeric field of the source parsers, of shape
`float(m.group(1).replace(',', '')) if m else None`: the outer `none`
models an exception (failing the whole parse), `some none` a missing
match, `some (some q)` a parsed value. -/
def optNumC (m : Option (List Char)) : Option (Option ℚ) :=
  match m with
  | none => some none
  | some s => (pyFloatC s).map some

/-- As `optNumC` but without the comma-strip, for the fields written
`float(m.group(1)) if m else None` in the source. -/
def optNum (m : Option (List Char)) : Option (Option ℚ) :=
  match m with
  | none => some none
  | some s => (pyFloat? s).map some

/-- A numeric field with default `0.0`, of shape
`float(m.group(1).replace(',', '')) if m else 0.0`. -/
def numD0C (m : Option (List Char)) : Option ℚ :=
  match m with
  | none => some 0
  | some s => pyFloatC s

/-- A numeric field with default `0.0` and no comma-strip, of shape
`float(m.group(1)) if m else 0.0`. -/
def numD0 (m : Option (List Char)) : Option ℚ :=
  match m with
  | none => some 0
  | some s => pyFloat? s

/-- `m.group(1) if m else default` for the date fields that fall back to
the hint timestamp. -/
def orD (a b : Option (List Char)) : Option (List Char) :=
  match a with
  | some x => some x
  | none => b

/-!  ## Message classifier (`EnhancedMTNParser._identify_message_type`)  -/

/-- `_identify_message_type`, translated clause by clause from the
`if`/`elif` chain of `src/etl/parser.py` lines 75-146. -/
def identify_message_type (message : List Char) : List Char :=
  let mu := pyUpper message
  if strIn (lc (r"YOU HAVE RECEIVED")) mu then lc (r"INCOMING_MONEY")
  else if strIn (lc (r"*162*TXID:")) mu && strIn (lc (r"AIRTIME")) mu then
    lc (r"AIRTIME_PURCHASE")
  else if strIn (lc (r"*162*TXID:")) mu && strIn (lc (r"BUNDLES AND PACKS")) mu then
    lc (r"DATA_BUNDLE_PURCHASE")
  else if strIn (lc (r"*162*TXID:")) mu &&
      (strIn (lc (r"ONAFRIQ")) mu || strIn (lc (r"ESICIA")) mu || strIn (lc (r"MTN")) mu) then
    lc (r"BUSINESS_PAYMENT")
  else if strIn (lc (r"TXID:")) mu && strIn (lc (r"YOUR PAYMENT OF")) mu &&
      strIn (lc (r"HAS BEEN COMPLETED")) mu then
    lc (r"PAYMENT_MOMO_CODE")
  else if strIn (lc (r"*113*R*")) mu && strIn (lc (r"bank deposit")) (pyLower mu) then
    lc (r"DEPOSIT_AGENT")
  else if strIn (lc (r"*113*R*")) mu then lc (r"DEPOSIT_OTHER")
  else if strIn (lc (r"*165*S*")) mu && strIn (lc (r"TRANSFERRED TO")) mu then
    lc (r"TRANSFER_MOBILE")
  else if strIn (lc (r"*164*S*")) mu && strIn (lc (r"DATA BUNDLE")) mu then
    lc (r"DATA_BUNDLE_PURCHASE")
  else if strIn (lc (r"*164*S*")) mu then lc (r"BUSINESS_PAYMENT")
  else if strIn (lc (r"HAVE VIA AGENT:")) mu && strIn (lc (r"WITHDRAWN")) mu then
    lc (r"CASH_WITHDRAWAL")
  else if strIn (lc (r"YOU HAVE TRANSFERRED")) mu && strIn (lc (r"IMBANK.BANK")) mu then
    lc (r"TRANSFER_IMBANK")
  else if strIn (lc (r"YOUR PAYMENT OF")) mu && strIn (lc (r"HAS BEEN COMPLETED")) mu &&
      !(strIn (lc (r"TXID:")) mu) then
    lc (r"PAYMENT_ALTERNATIVE")
  else if strIn (lc (r"*143*")) mu &&
      (strIn (lc (r"HAS FAILED")) mu || strIn (lc (r"has failed")) (pyLower message) ||
        strIn (lc (r"FAILED AT")) mu) then
    lc (r"FAILED_TRANSACTION")
  else if strIn (lc (r"REVERSAL HAS BEEN INITIATED")) mu ||
      strIn (lc (r"HAS BEEN REVERSED")) mu then
    lc (r"REVERSAL")
  else if strIn (lc (r"DEPOSIT RWF")) mu && strIn (lc (r"RECEIVER:")) mu then
    lc (r"DEPOSIT_ALTERNATIVE")
  else lc (r"UNKNOWN")

/-- The classifier's rules as an explicit priority-ordered list:
predicate on the message paired with the resulting kind, in the order the
source tests them. -/
def classifierRules : List ((List Char → Bool) × List Char) :=
  [ (fun m => strIn (lc (r"YOU HAVE RECEIVED")) (pyUpper m), lc (r"INCOMING_MONEY")),
    (fun m => strIn (lc (r"*162*TXID:")) (pyUpper m) && strIn (lc (r"AIRTIME")) (pyUpper m),
      lc (r"AIRTIME_PURCHASE")),
    (fun m => strIn (lc (r"*162*TXID:")) (pyUpper m) &&
        strIn (lc (r"BUNDLES AND PACKS")) (pyUpper m),
      lc (r"DATA_BUNDLE_PURCHASE")),
    (fun m => strIn (lc (r"*162*TXID:")) (pyUpper m) &&
        (strIn (lc (r"ONAFRIQ")) (pyUpper m) || strIn (lc (r"ESICIA")) (pyUpper m) ||
          strIn (lc (r"MTN")) (pyUpper m)),
      lc (r"BUSINESS_PAYMENT")),
    (fun m => strIn (lc (r"TXID:")) (pyUpper m) && strIn (lc (r"YOUR PAYMENT OF")) (pyUpper m) &&
        strIn (lc (r"HAS BEEN COMPLETED")) (pyUpper m),
      lc (r"PAYMENT_MOMO_CODE")),
    (fun m => strIn (lc (r"*113*R*")) (pyUpper m) &&
        strIn (lc (r"bank deposit")) (pyLower (pyUpper m)),
      lc (r"DEPOSIT_AGENT")),
    (fun m => strIn (lc (r"*113*R*")) (pyUpper m), lc (r"DEPOSIT_OTHER")),
    (fun m => strIn (lc (r"*165*S*")) (pyUpper m) && strIn (lc (r"TRANSFERRED TO")) (pyUpper m),
      lc (r"TRANSFER_MOBILE")),
    (fun m => strIn (lc (r"*164*S*")) (pyUpper m) && strIn (lc (r"DATA BUNDLE")) (pyUpper m),
      lc (r"DATA_BUNDLE_PURCHASE")),
    (fun m => strIn (lc (r"*164*S*")) (pyUpper m), lc (r"BUSINESS_PAYMENT")),
    (fun m => strIn (lc (r"HAVE VIA AGENT:")) (pyUpper m) &&
        strIn (lc (r"WITHDRAWN")) (pyUpper m),
      lc (r"CASH_WITHDRAWAL")),
    (fun m => strIn (lc (r"YOU HAVE TRANSFERRED")) (pyUpper m) &&
        strIn (lc (r"IMBANK.BANK")) (pyUpper m),
      lc (r"TRANSFER_IMBANK")),
    (fun m => strIn (lc (r"YOUR PAYMENT OF")) (pyUpper m) &&
        strIn (lc (r"HAS BEEN COMPLETED")) (pyUpper m) && !(strIn (lc (r"TXID:")) (pyUpper m)),
      lc (r"PAYMENT_ALTERNATIVE")),
    (fun m => strIn (lc (r"*143*")) (pyUpper m) &&
        (strIn (lc (r"HAS FAILED")) (pyUpper m) || strIn (lc (r"has failed")) (pyLower m) ||
          strIn (lc (r"FAILED AT")) (pyUpper m)),
      lc (r"FAILED_TRANSACTION")),
    (fun m => strIn (lc (r"REVERSAL HAS BEEN INITIATED")) (pyUpper m) ||
        strIn (lc (r"HAS BEEN REVERSED")) (pyUpper m),
      lc (r"REVERSAL")),
    (fun m => strIn (lc (r"DEPOSIT RWF")) (pyUpper m) && strIn (lc (r"RECEIVER:")) (pyUpper m),
      lc (r"DEPOSIT_ALTERNATIVE")) ]

/-- The closed set of message kinds the classifier can return. -/
def messageKinds : List (List Char) :=
  [ lc (r"INCOMING_MONEY"), lc (r"AIRTIME_PURCHASE"), lc (r"DATA_BUNDLE_PURCHASE"),
    lc (r"BUSINESS_PAYMENT"), lc (r"PAYMENT_MOMO_CODE"), lc (r"DEPOSIT_AGENT"),
    lc (r"DEPOSIT_OTHER"), lc (r"TRANSFER_MOBILE"), lc (r"CASH_WITHDRAWAL"),
    lc (r"TRANSFER_IMBANK"), lc (r"PAYMENT_ALTERNATIVE"), lc (r"FAILED_TRANSACTION"),
    lc (r"REVERSAL"), lc (r"DEPOSIT_ALTERNATIVE"), lc (r"UNKNOWN") ]

/-!  ## Regex patterns of the field extractors (`src/etl/parser.py`)  -/

/-- Concatenate a list of regex pieces. -/
def reSeq : List RE → RE
  | [] => RE.lit []
  | [r] => r
  | r :: rs => RE.cat r (reSeq rs)

/-- `\d{n}`. -/
def dN (n : Nat) : RE := RE.rep n n isDigitB

/-- The amount capture `([\d,]+(?:\.\d{2})?)` shared by most extractors. -/
def amount_group : RE :=
  RE.group 1 (RE.cat (RE.plus digitComma)
    (RE.opt (reSeq [RE.lit (lc (r".")), RE.cls isDigitB, RE.cls isDigitB])))

/-- The date capture `(\d{4}-\d{2}-\d{2} \d{2}:\d{2}:\d{2})`. -/
def date_group : RE :=
  RE.group 1 (reSeq [dN 4, RE.lit (lc (r"-")), dN 2, RE.lit (lc (r"-")), dN 2,
    RE.lit (lc (r" ")), dN 2, RE.lit (lc (r":")), dN 2, RE.lit (lc (r":")), dN 2])

/-- `YOU HAVE RECEIVED ([\d,]+(?:\.\d{2})?) RWF` -/
def re_incoming_amount : RE :=
  reSeq [RE.lit (lc (r"YOU HAVE RECEIVED ")), amount_group, RE.lit (lc (r" RWF"))]

/-- `FROM ([^(]+) \(` -/
def re_incoming_sender : RE :=
  reSeq [RE.lit (lc (r"FROM ")), RE.group 1 (RE.plus (notChar '(')), RE.lit (lc (r" ("))]

/-- `\(([^)]+)\)` -/
def re_paren_phone : RE :=
  reSeq [RE.lit (lc (r"(")), RE.group 1 (RE.plus (notChar ')')), RE.lit (lc (r")"))]

/-- `YOUR NEW BALANCE:?([\d,]+(?:\.\d{2})?) RWF` -/
def re_incoming_balance : RE :=
  reSeq [RE.lit (lc (r"YOUR NEW BALANCE")), RE.opt (RE.lit (lc (r":"))),
    amount_group, RE.lit (lc (r" RWF"))]

/-- `FINANCIAL TRANSACTION ID: (\d+)` -/
def re_fin_txid : RE :=
  reSeq [RE.lit (lc (r"FINANCIAL TRANSACTION ID: ")), RE.group 1 (RE.plus isDigitB)]

/-- `AT (\d{4}-\d{2}-\d{2} \d{2}:\d{2}:\d{2})` (upper-case searches). -/
def re_at_date_up : RE := reSeq [RE.lit (lc (r"AT ")), date_group]

/-- `at (\d{4}-\d{2}-\d{2} \d{2}:\d{2}:\d{2})` (lower-case searches). -/
def re_at_date_low : RE := reSeq [RE.lit (lc (r"at ")), date_group]

/-- `YOUR PAYMENT OF ([\d,]+(?:\.\d{2})?) RWF` -/
def re_payment_amount : RE :=
  reSeq [RE.lit (lc (r"YOUR PAYMENT OF ")), amount_group, RE.lit (lc (r" RWF"))]

/-- `TO ([^(]+) (\d{5})` -/
def re_momo_recipient : RE :=
  reSeq [RE.lit (lc (r"TO ")), RE.group 1 (RE.plus (notChar '(')),
    RE.lit (lc (r" ")), RE.group 2 (dN 5)]

/-- `YOUR NEW BALANCE:? ([\d,]+(?:\.\d{2})?) RWF` -/
def re_balance_sp : RE :=
  reSeq [RE.lit (lc (r"YOUR NEW BALANCE")), RE.opt (RE.lit (lc (r":"))),
    RE.lit (lc (r" ")), amount_group, RE.lit (lc (r" RWF"))]

/-- `FEE WAS (\d+) RWF` -/
def re_fee_was : RE :=
  reSeq [RE.lit (lc (r"FEE WAS ")), RE.group 1 (RE.plus isDigitB), RE.lit (lc (r" RWF"))]

/-- `TXID: (\d+)` -/
def re_txid_sp : RE :=
  reSeq [RE.lit (lc (r"TXID: ")), RE.group 1 (RE.plus isDigitB)]

/-- `a bank deposit of (\d+) rwf` -/
def re_dep_amount1 : RE :=
  reSeq [RE.lit (lc (r"a bank deposit of ")), RE.group 1 (RE.plus isDigitB),
    RE.lit (lc (r" rwf"))]

/-- `bank deposit of (\d+) rwf` -/
def re_dep_amount2 : RE :=
  reSeq [RE.lit (lc (r"bank deposit of ")), RE.group 1 (RE.plus isDigitB),
    RE.lit (lc (r" rwf"))]

/-- `deposit of (\d+) rwf` -/
def re_dep_amount3 : RE :=
  reSeq [RE.lit (lc (r"deposit of ")), RE.group 1 (RE.plus isDigitB), RE.lit (lc (r" rwf"))]

/-- `your new balance :?(\d+) rwf` -/
def re_balance_low : RE :=
  reSeq [RE.lit (lc (r"your new balance ")), RE.opt (RE.lit (lc (r":"))),
    RE.group 1 (RE.plus isDigitB), RE.lit (lc (r" rwf"))]

/-- `::(\d{12})` -/
def re_agent_momo : RE := reSeq [RE.lit (lc (r"::")), RE.group 1 (dN 12)]

/-- `([\d,]+(?:\.\d{2})?) rwf` -/
def re_amount_rwf_low : RE := reSeq [amount_group, RE.lit (lc (r" rwf"))]

/-- `\*165\*S\*(\d+) RWF` -/
def re_transfer_amount : RE :=
  reSeq [RE.lit (lc (r"*165*S*")), RE.group 1 (RE.plus isDigitB), RE.lit (lc (r" RWF"))]

/-- `TRANSFERRED TO ([^(]+) \(([^)]+)\)` -/
def re_transfer_recipient : RE :=
  reSeq [RE.lit (lc (r"TRANSFERRED TO ")), RE.group 1 (RE.plus (notChar '(')),
    RE.lit (lc (r" (")), RE.group 2 (RE.plus (notChar ')')), RE.lit (lc (r")"))]

/-- `FROM (\d{8})` -/
def re_from_momo_id : RE := reSeq [RE.lit (lc (r"FROM ")), RE.group 1 (dN 8)]

/-- `FEE WAS:? (\d+) RWF` -/
def re_fee_was_colon : RE :=
  reSeq [RE.lit (lc (r"FEE WAS")), RE.opt (RE.lit (lc (r":"))), RE.lit (lc (r" ")),
    RE.group 1 (RE.plus isDigitB), RE.lit (lc (r" RWF"))]

/-- `NEW BALANCE:? ([\d,]+(?:\.\d{2})?) RWF` -/
def re_new_balance : RE :=
  reSeq [RE.lit (lc (r"NEW BALANCE")), RE.opt (RE.lit (lc (r":"))), RE.lit (lc (r" ")),
    amount_group, RE.lit (lc (r" RWF"))]

/-- `TXID:(\d+)` -/
def re_txid_nosp : RE :=
  reSeq [RE.lit (lc (r"TXID:")), RE.group 1 (RE.plus isDigitB)]

/-- `(?:TRANSACTION OF|YOUR PAYMENT OF) ([\d,]+(?:\.\d{2})?) RWF` -/
def re_tx_or_payment_amount : RE :=
  reSeq [RE.alt (RE.lit (lc (r"TRANSACTION OF"))) (RE.lit (lc (r"YOUR PAYMENT OF"))),
    RE.lit (lc (r" ")), amount_group, RE.lit (lc (r" RWF"))]

/-- `FEE (?:WAS|WAS) ([\d,]+(?:\.\d{2})?) RWF` -/
def re_fee_was_amt : RE :=
  reSeq [RE.lit (lc (r"FEE ")), RE.alt (RE.lit (lc (r"WAS"))) (RE.lit (lc (r"WAS"))),
    RE.lit (lc (r" ")), amount_group, RE.lit (lc (r" RWF"))]

/-- `EXTERNAL TRANSACTION ID: (\d+)` -/
def re_ext_txid : RE :=
  reSeq [RE.lit (lc (r"EXTERNAL TRANSACTION ID: ")), RE.group 1 (RE.plus isDigitB)]

/-- `(?:BY ([^O]+) ON YOUR MOMO ACCOUNT|TO ([^W]+) WITH)` -/
def re_business_name : RE :=
  RE.alt
    (reSeq [RE.lit (lc (r"BY ")), RE.group 1 (RE.plus (notChar 'O')),
      RE.lit (lc (r" ON YOUR MOMO ACCOUNT"))])
    (reSeq [RE.lit (lc (r"TO ")), RE.group 2 (RE.plus (notChar 'W')),
      RE.lit (lc (r" WITH"))])

/-- `WITHDRAWN ([\d,]+(?:\.\d{2})?) RWF` -/
def re_withdrawn_amount : RE :=
  reSeq [RE.lit (lc (r"WITHDRAWN ")), amount_group, RE.lit (lc (r" RWF"))]

/-- `YOU ([^(]+) \(` -/
def re_you_name : RE :=
  reSeq [RE.lit (lc (r"YOU ")), RE.group 1 (RE.plus (notChar '(')), RE.lit (lc (r" ("))]

/-- `AGENT: ([^(]+) \(([^)]+)\)` -/
def re_agent_name_phone : RE :=
  reSeq [RE.lit (lc (r"AGENT: ")), RE.group 1 (RE.plus (notChar '(')),
    RE.lit (lc (r" (")), RE.group 2 (RE.plus (notChar ')')), RE.lit (lc (r")"))]

/-- `FEE PAID:? ([\d,]+(?:\.\d{2})?) RWF` -/
def re_fee_paid : RE :=
  reSeq [RE.lit (lc (r"FEE PAID")), RE.opt (RE.lit (lc (r":"))), RE.lit (lc (r" ")),
    amount_group, RE.lit (lc (r" RWF"))]

/-- `TRANSFERRED ([\d,]+(?:\.\d{2})?) RWF` -/
def re_transferred_amount : RE :=
  reSeq [RE.lit (lc (r"TRANSFERRED ")), amount_group, RE.lit (lc (r" RWF"))]

/-- `TO ([^(]+) \(([^)]+)\)` -/
def re_to_name_phone : RE :=
  reSeq [RE.lit (lc (r"TO ")), RE.group 1 (RE.plus (notChar '(')),
    RE.lit (lc (r" (")), RE.group 2 (RE.plus (notChar ')')), RE.lit (lc (r")"))]

/-- `FEE WAS ([\d,]+(?:\.\d{2})?) RWF` -/
def re_fee_was_amt2 : RE :=
  reSeq [RE.lit (lc (r"FEE WAS ")), amount_group, RE.lit (lc (r" RWF"))]

/-- `EXTERNAL TRANSACTION ID: ([^-]+)` -/
def re_ext_txid_dash : RE :=
  reSeq [RE.lit (lc (r"EXTERNAL TRANSACTION ID: ")), RE.group 1 (RE.plus (notChar '-'))]

/-- `(?:AMOUNT|YOUR PAYMENT OF) ([\d,]+(?:\.\d{2})?) RWF` -/
def re_failed_amount : RE :=
  reSeq [RE.alt (RE.lit (lc (r"AMOUNT"))) (RE.lit (lc (r"YOUR PAYMENT OF"))),
    RE.lit (lc (r" ")), amount_group, RE.lit (lc (r" RWF"))]

/-- `(?:FOR ([^W]+) WITH|TO ([^(]+))` -/
def re_failed_service : RE :=
  RE.alt
    (reSeq [RE.lit (lc (r"FOR ")), RE.group 1 (RE.plus (notChar 'W')),
      RE.lit (lc (r" WITH"))])
    (reSeq [RE.lit (lc (r"TO ")), RE.group 2 (RE.plus (notChar '('))])

/-- `(?:FAILED AT|has failed at) (\d{4}-\d{2}-\d{2} \d{2}:\d{2}:\d{2})` -/
def re_failed_date : RE :=
  reSeq [RE.alt (RE.lit (lc (r"FAILED AT"))) (RE.lit (lc (r"has failed at"))),
    RE.lit (lc (r" ")), date_group]

/-- `WITH ([\d,]+(?:\.\d{2})?) RWF` -/
def re_with_amount : RE :=
  reSeq [RE.lit (lc (r"WITH ")), amount_group, RE.lit (lc (r" RWF"))]

/-- `YOUR NEW BALANCE IS ([\d,]+(?:\.\d{2})?) RWF` -/
def re_balance_is : RE :=
  reSeq [RE.lit (lc (r"YOUR NEW BALANCE IS ")), amount_group, RE.lit (lc (r" RWF"))]

/-- `DEPOSIT RWF ([\d,]+(?:\.\d{2})?)` -/
def re_deposit_rwf_amount : RE :=
  reSeq [RE.lit (lc (r"DEPOSIT RWF ")), amount_group]

/-- `RECEIVER: (\d+)` -/
def re_receiver : RE :=
  reSeq [RE.lit (lc (r"RECEIVER: ")), RE.group 1 (RE.plus isDigitB)]

/-- `(\d{4}-\d{2}-\d{2})` -/
def re_date_simple : RE :=
  RE.group 1 (reSeq [dN 4, RE.lit (lc (r"-")), dN 2, RE.lit (lc (r"-")), dN 2])

/-!  ## Structured transaction data (`ParsedTransaction` dataclass)  -/

/-- The `ParsedTransaction` dataclass of `src/etl/parser.py`, with its
field defaults. Floats are modelled in `ℚ`. -/
structure ParsedTransaction where
  amount : ℚ
  currency : List Char := lc (r"RWF")
  transaction_type : List Char := []
  category : List Char := []
  direction : List Char := []
  sender_name : Option (List Char) := none
  sender_phone : Option (List Char) := none
  recipient_name : Option (List Char) := none
  recipient_phone : Option (List Char) := none
  momo_code : Option (List Char) := none
  sender_momo_id : Option (List Char) := none
  agent_momo_number : Option (List Char) := none
  business_name : Option (List Char) := none
  fee : ℚ := 0
  new_balance : Option ℚ := none
  transaction_id : Option (List Char) := none
  financial_transaction_id : Option (List Char) := none
  external_transaction_id : Option (List Char) := none
  date : Option (List Char) := none
  original_message : List Char := []
  confidence : ℚ := 0
  deriving DecidableEq, Repr

/-- `x or y` on optional strings followed by
`x.strip() if x else None`, as the business-name and service-name fields
compute it. -/
def orStripped (g1 g2 : Option (List Char)) : Option (List Char) :=
  let bn :=
    match g1 with
    | some s => if s.isEmpty then g2 else some s
    | none => g2
  match bn with
  | some s => if s.isEmpty then none else some (pyStrip s)
  | none => none

/-!  ## Field extractors (`EnhancedMTNParser._parse_*`)

Each extractor is a chain of fallible steps (`Option.bind`): a failing
mandatory pattern or a `float(...)` exception on a present numeric field
aborts the parse (`return None` / the caught exception), while missing
optional fields flow through as `none` / defaults. -/

/-- Both capture groups of a required two-group match (`if m: g1, g2 =
m.group(1), m.group(2) else: return None`; both groups participate in
every successful match of the patterns this is used with). -/
def req2 (m : Option (Option (List Char) × Option (List Char))) :
    Option (List Char × List Char) :=
  match m with
  | some (some a, some b) => some (a, b)
  | some _ => none
  | none => none

/-- `_parse_incoming_money` (parser.py lines 182-227). -/
def parse_incoming_money (message : List Char) (timestamp : Option (List Char)) :
    Option ParsedTransaction :=
  let up := pyUpper message
  (search1 re_incoming_amount up).bind fun amt =>
  (pyFloatC amt).bind fun amount =>
  (optNumC (search1 re_incoming_balance up)).bind fun new_balance =>
  some { amount := amount,
         transaction_type := lc (r"RECEIVE"),
         category := lc (r"TRANSFER_INCOMING"),
         direction := lc (r"credit"),
         sender_name := (search1 re_incoming_sender up).map pyStrip,
         sender_phone := search1 re_paren_phone message,
         new_balance := new_balance,
         transaction_id := search1 re_fin_txid up,
         date := orD (search1 re_at_date_up up) timestamp,
         original_message := message,
         confidence := 19/20 }

/-- `_parse_payment_momo_code` (parser.py lines 229-279); the recipient
pattern is mandatory. -/
def parse_payment_momo_code (message : List Char) (timestamp : Option (List Char)) :
    Option ParsedTransaction :=
  let up := pyUpper message
  (search1 re_payment_amount up).bind fun amt =>
  (pyFloatC amt).bind fun amount =>
  (req2 (search2 re_momo_recipient up)).bind fun rc =>
  (optNumC (search1 re_balance_sp up)).bind fun new_balance =>
  (numD0 (search1 re_fee_was up)).bind fun fee =>
  some { amount := amount,
         transaction_type := lc (r"PAYMENT"),
         category := lc (r"PAYMENT_PERSONAL"),
         direction := lc (r"debit"),
         recipient_name := some (pyStrip rc.1),
         momo_code := some rc.2,
         fee := fee,
         new_balance := new_balance,
         transaction_id := search1 re_txid_sp up,
         date := orD (search1 re_at_date_up up) timestamp,
         original_message := message,
         confidence := 19/20 }

/-- `_parse_deposit_agent` (parser.py lines 281-329); the three amount
patterns are tried in order. -/
def parse_deposit_agent (message : List Char) (timestamp : Option (List Char)) :
    Option ParsedTransaction :=
  let low := pyLower message
  (orD (search1 re_dep_amount1 low)
    (orD (search1 re_dep_amount2 low) (search1 re_dep_amount3 low))).bind fun amt =>
  (pyFloatC amt).bind fun amount =>
  (optNumC (search1 re_balance_low low)).bind fun new_balance =>
  some { amount := amount,
         transaction_type := lc (r"DEPOSIT"),
         category := lc (r"DEPOSIT_AGENT"),
         direction := lc (r"credit"),
         recipient_name := some (lc (r"Self")),
         agent_momo_number := search1 re_agent_momo message,
         new_balance := new_balance,
         date := orD (search1 re_at_date_low low) timestamp,
         original_message := message,
         confidence := 19/20 }

/-- `_parse_cash_deposit` (parser.py lines 354-390). -/
def parse_cash_deposit (message : List Char) (timestamp : Option (List Char)) :
    Option ParsedTransaction :=
  let low := pyLower message
  (search1 re_amount_rwf_low low).bind fun amt =>
  (pyFloatC amt).bind fun amount =>
  (optNumC (search1 re_balance_low low)).bind fun new_balance =>
  some { amount := amount,
         transaction_type := lc (r"DEPOSIT"),
         category := lc (r"DEPOSIT_CASH"),
         direction := lc (r"credit"),
         recipient_name := some (lc (r"Self")),
         agent_momo_number := search1 re_agent_momo message,
         new_balance := new_balance,
         date := orD (search1 re_at_date_low low) timestamp,
         original_message := message,
         confidence := 9/10 }

/-- `_parse_bank_transfer` (parser.py lines 392-423). -/
def parse_bank_transfer (message : List Char) (timestamp : Option (List Char)) :
    Option ParsedTransaction :=
  let low := pyLower message
  (search1 re_amount_rwf_low low).bind fun amt =>
  (pyFloatC amt).bind fun amount =>
  (optNumC (search1 re_balance_low low)).bind fun new_balance =>
  some { amount := amount,
         transaction_type := lc (r"DEPOSIT"),
         category := lc (r"DEPOSIT_BANK_TRANSFER"),
         direction := lc (r"credit"),
         recipient_name := some (lc (r"Self")),
         new_balance := new_balance,
         date := orD (search1 re_at_date_low low) timestamp,
         original_message := message,
         confidence := 9/10 }

/-- `_parse_generic_deposit` (parser.py lines 425-456). -/
def parse_generic_deposit (message : List Char) (timestamp : Option (List Char)) :
    Option ParsedTransaction :=
  let low := pyLower message
  (search1 re_amount_rwf_low low).bind fun amt =>
  (pyFloatC amt).bind fun amount =>
  (optNumC (search1 re_balance_low low)).bind fun new_balance =>
  some { amount := amount,
         transaction_type := lc (r"DEPOSIT"),
         category := lc (r"DEPOSIT_OTHER"),
         direction := lc (r"credit"),
         recipient_name := some (lc (r"Self")),
         new_balance := new_balance,
         date := orD (search1 re_at_date_low low) timestamp,
         original_message := message,
         confidence := 4/5 }

/-- `_parse_deposit_other` (parser.py lines 331-352): dispatch on the
message content. -/
def parse_deposit_other (message : List Char) (timestamp : Option (List Char)) :
    Option ParsedTransaction :=
  let low := pyLower message
  if strIn (lc (r"bank deposit")) low then parse_deposit_agent message timestamp
  else if strIn (lc (r"cash deposit")) low then parse_cash_deposit message timestamp
  else if strIn (lc (r"transfer")) low then parse_bank_transfer message timestamp
  else parse_generic_deposit message timestamp

/-- `_parse_transfer_mobile` (parser.py lines 458-508); the recipient
pattern is mandatory, and the amount pattern accepts plain digits only. -/
def parse_transfer_mobile (message : List Char) (timestamp : Option (List Char)) :
    Option ParsedTransaction :=
  let up := pyUpper message
  (search1 re_transfer_amount up).bind fun amt =>
  (pyFloatC amt).bind fun amount =>
  (req2 (search2 re_transfer_recipient up)).bind fun rc =>
  (numD0 (search1 re_fee_was_colon up)).bind fun fee =>
  (optNumC (search1 re_new_balance up)).bind fun new_balance =>
  some { amount := amount,
         transaction_type := lc (r"TRANSFER"),
         category := lc (r"TRANSFER_OUTGOING"),
         direction := lc (r"debit"),
         recipient_name := some (pyStrip rc.1),
         recipient_phone := some rc.2,
         sender_momo_id := search1 re_from_momo_id up,
         fee := fee,
         new_balance := new_balance,
         date := orD (search1 re_at_date_up up) timestamp,
         original_message := message,
         confidence := 19/20 }

/-- `_parse_airtime_purchase` (parser.py lines 510-551). -/
def parse_airtime_purchase (message : List Char) (timestamp : Option (List Char)) :
    Option ParsedTransaction :=
  let up := pyUpper message
  (search1 re_payment_amount up).bind fun amt =>
  (pyFloatC amt).bind fun amount =>
  (optNumC (search1 re_balance_sp up)).bind fun new_balance =>
  (numD0 (search1 re_fee_was up)).bind fun fee =>
  some { amount := amount,
         transaction_type := lc (r"PURCHASE"),
         category := lc (r"AIRTIME"),
         direction := lc (r"debit"),
         recipient_name := some (lc (r"Self")),
         fee := fee,
         new_balance := new_balance,
         transaction_id := search1 re_txid_nosp up,
         date := orD (search1 re_at_date_up up) timestamp,
         original_message := message,
         confidence := 19/20 }

/-- `_parse_data_bundle_purchase` (parser.py lines 553-604). -/
def parse_data_bundle_purchase (message : List Char) (timestamp : Option (List Char)) :
    Option ParsedTransaction :=
  let up := pyUpper message
  (search1 re_tx_or_payment_amount up).bind fun amt =>
  (pyFloatC amt).bind fun amount =>
  (optNumC (search1 re_balance_sp up)).bind fun new_balance =>
  (numD0C (search1 re_fee_was_amt up)).bind fun fee =>
  some { amount := amount,
         transaction_type := lc (r"PURCHASE"),
         category := lc (r"DATA_BUNDLE"),
         direction := lc (r"debit"),
         recipient_name := some (lc (r"Self")),
         fee := fee,
         new_balance := new_balance,
         transaction_id := search1 re_txid_nosp up,
         financial_transaction_id := search1 re_fin_txid up,
         external_transaction_id := search1 re_ext_txid up,
         date := orD (search1 re_at_date_up up) timestamp,
         original_message := message,
         confidence := 19/20 }

/-- `_parse_business_payment` (parser.py lines 606-664). -/
def parse_business_payment (message : List Char) (timestamp : Option (List Char)) :
    Option ParsedTransaction :=
  let up := pyUpper message
  (search1 re_tx_or_payment_amount up).bind fun amt =>
  (pyFloatC amt).bind fun amount =>
  (optNumC (search1 re_balance_sp up)).bind fun new_balance =>
  (numD0C (search1 re_fee_was_amt up)).bind fun fee =>
  some { amount := amount,
         transaction_type := lc (r"PAYMENT"),
         category := lc (r"PAYMENT_BUSINESS"),
         direction := lc (r"debit"),
         business_name :=
           (match search2 re_business_name up with
            | none => none
            | some (g1, g2) => orStripped g1 g2),
         fee := fee,
         new_balance := new_balance,
         transaction_id := search1 re_txid_nosp up,
         financial_transaction_id := search1 re_fin_txid up,
         external_transaction_id := search1 re_ext_txid up,
         date := orD (search1 re_at_date_up up) timestamp,
         original_message := message,
         confidence := 19/20 }

/-- `_parse_cash_withdrawal` (parser.py lines 666-717). -/
def parse_cash_withdrawal (message : List Char) (timestamp : Option (List Char)) :
    Option ParsedTransaction :=
  let up := pyUpper message
  (search1 re_withdrawn_amount up).bind fun amt =>
  (pyFloatC amt).bind fun amount =>
  (optNumC (search1 re_balance_sp up)).bind fun new_balance =>
  (numD0C (search1 re_fee_paid up)).bind fun fee =>
  some { amount := amount,
         transaction_type := lc (r"WITHDRAWAL"),
         category := lc (r"CASH_WITHDRAWAL"),
         direction := lc (r"debit"),
         sender_name := (search1 re_you_name up).map pyStrip,
         agent_momo_number :=
           (match search2 re_agent_name_phone up with
            | none => none
            | some (_, g2) => g2),
         fee := fee,
         new_balance := new_balance,
         transaction_id := search1 re_fin_txid up,
         date := orD (search1 re_at_date_up up) timestamp,
         original_message := message,
         confidence := 19/20 }

/-- `_parse_transfer_imbank` (parser.py lines 719-756). -/
def parse_transfer_imbank (message : List Char) (timestamp : Option (List Char)) :
    Option ParsedTransaction :=
  let up := pyUpper message
  (search1 re_transferred_amount up).bind fun amt =>
  (pyFloatC amt).bind fun amount =>
  some { amount := amount,
         transaction_type := lc (r"TRANSFER"),
         category := lc (r"TRANSFER_OUTGOING"),
         direction := lc (r"debit"),
         recipient_name :=
           (match search2 re_to_name_phone up with
            | none => none
            | some (g1, _) => g1.map pyStrip),
         recipient_phone :=
           (match search2 re_to_name_phone up with
            | none => none
            | some (_, g2) => g2),
         transaction_id := search1 re_fin_txid up,
         date := orD (search1 re_at_date_up up) timestamp,
         original_message := message,
         confidence := 19/20 }

/-- `_parse_payment_alternative` (parser.py lines 758-810). -/
def parse_payment_alternative (message : List Char) (timestamp : Option (List Char)) :
    Option ParsedTransaction :=
  let up := pyUpper message
  (search1 re_payment_amount up).bind fun amt =>
  (pyFloatC amt).bind fun amount =>
  (optNumC (search1 re_balance_sp up)).bind fun new_balance =>
  (numD0C (search1 re_fee_was_amt2 up)).bind fun fee =>
  some { amount := amount,
         transaction_type := lc (r"PAYMENT"),
         category := lc (r"PAYMENT_PERSONAL"),
         direction := lc (r"debit"),
         recipient_name :=
           (match search2 re_to_name_phone up with
            | none => none
            | some (g1, _) => g1.map pyStrip),
         recipient_phone :=
           (match search2 re_to_name_phone up with
            | none => none
            | some (_, g2) => g2),
         fee := fee,
         new_balance := new_balance,
         transaction_id := search1 re_fin_txid up,
         external_transaction_id := (search1 re_ext_txid_dash up).map pyStrip,
         date := orD (search1 re_at_date_up up) timestamp,
         original_message := message,
         confidence := 19/20 }

/-- `_parse_failed_transaction` (parser.py lines 812-850). -/
def parse_failed_transaction (message : List Char) (timestamp : Option (List Char)) :
    Option ParsedTransaction :=
  let up := pyUpper message
  (search1 re_failed_amount up).bind fun amt =>
  (pyFloatC amt).bind fun amount =>
  some { amount := amount,
         transaction_type := lc (r"FAILED"),
         category := lc (r"FAILED_TRANSACTION"),
         direction := lc (r"debit"),
         recipient_name :=
           (match search2 re_failed_service up with
            | none => none
            | some (g1, g2) => orStripped g1 g2),
         transaction_id := search1 re_txid_nosp up,
         date := orD (search1 re_failed_date up) timestamp,
         original_message := message,
         confidence := 9/10 }

/-- `_parse_reversal` (parser.py lines 852-889). -/
def parse_reversal (message : List Char) (timestamp : Option (List Char)) :
    Option ParsedTransaction :=
  let up := pyUpper message
  (search1 re_with_amount up).bind fun amt =>
  (pyFloatC amt).bind fun amount =>
  (optNumC (search1 re_balance_is up)).bind fun new_balance =>
  some { amount := amount,
         transaction_type := lc (r"REVERSAL"),
         category := lc (r"REVERSAL"),
         direction := lc (r"credit"),
         recipient_name :=
           (match search2 re_to_name_phone up with
            | none => none
            | some (g1, _) => g1.map pyStrip),
         recipient_phone :=
           (match search2 re_to_name_phone up with
            | none => none
            | some (_, g2) => g2),
         new_balance := new_balance,
         date := orD (search1 re_at_date_up up) timestamp,
         original_message := message,
         confidence := 9/10 }

/-- `_parse_deposit_alternative` (parser.py lines 891-922). -/
def parse_deposit_alternative (message : List Char) (timestamp : Option (List Char)) :
    Option ParsedTransaction :=
  let up := pyUpper message
  (search1 re_deposit_rwf_amount up).bind fun amt =>
  (pyFloatC amt).bind fun amount =>
  some { amount := amount,
         transaction_type := lc (r"DEPOSIT"),
         category := lc (r"DEPOSIT_ALTERNATIVE"),
         direction := lc (r"credit"),
         recipient_name := some (lc (r"Self")),
         recipient_phone := search1 re_receiver up,
         date := orD (search1 re_date_simple message) timestamp,
         original_message := message,
         confidence := 17/20 }

/-- `_extract_transaction_data` (parser.py lines 148-180). -/
def extract_transaction_data (message : List Char) (message_type : List Char)
    (timestamp : Option (List Char)) : Option ParsedTransaction :=
  if message_type == lc (r"INCOMING_MONEY") then parse_incoming_money message timestamp
  else if message_type == lc (r"PAYMENT_MOMO_CODE") then parse_payment_momo_code message timestamp
  else if message_type == lc (r"DEPOSIT_AGENT") then parse_deposit_agent message timestamp
  else if message_type == lc (r"DEPOSIT_OTHER") then parse_deposit_other message timestamp
  else if message_type == lc (r"TRANSFER_MOBILE") then parse_transfer_mobile message timestamp
  else if message_type == lc (r"AIRTIME_PURCHASE") then parse_airtime_purchase message timestamp
  else if message_type == lc (r"DATA_BUNDLE_PURCHASE") then
    parse_data_bundle_purchase message timestamp
  else if message_type == lc (r"BUSINESS_PAYMENT") then parse_business_payment message timestamp
  else if message_type == lc (r"CASH_WITHDRAWAL") then parse_cash_withdrawal message timestamp
  else if message_type == lc (r"TRANSFER_IMBANK") then parse_transfer_imbank message timestamp
  else if message_type == lc (r"PAYMENT_ALTERNATIVE") then
    parse_payment_alternative message timestamp
  else if message_type == lc (r"FAILED_TRANSACTION") then
    parse_failed_transaction message timestamp
  else if message_type == lc (r"REVERSAL") then parse_reversal message timestamp
  else if message_type == lc (r"DEPOSIT_ALTERNATIVE") then
    parse_deposit_alternative message timestamp
  else none

/-- Mutable counters of `EnhancedMTNParser` (`parsed_count`,
`error_count`, `errors`). -/
structure MTNParserState where
  parsed_count : Nat := 0
  error_count : Nat := 0
  errors : List (List Char) := []
  deriving DecidableEq, Repr

/-- The error text appended on a failed parse:
`f"Failed to parse message: {message[:100]}..."`. -/
def failedParseMsg (message : List Char) : List Char :=
  lc (r"Failed to parse message: ") ++ message.take 100 ++ lc (r"...")

/-- `parse_message` (parser.py lines 48-73): classify, extract, and update
the parser's counters; `none` models a dropped message. -/
def parse_message (st : MTNParserState) (message : List Char)
    (timestamp : Option (List Char)) : MTNParserState × Option ParsedTransaction :=
  let message_type := identify_message_type message
  if message_type == lc (r"UNKNOWN") then (st, none)
  else
    match extract_transaction_data message message_type timestamp with
    | some t => ({ st with parsed_count := st.parsed_count + 1 }, some t)
    | none =>
      ({ st with
          error_count := st.error_count + 1,
          errors := st.errors ++ [failedParseMsg message] }, none)

/-!  ## Change tracker (`src/etl/file_tracker.py`)

The `processed_files` table is modelled as an association list keyed by
`(file_name, file_path)`; the file system is an explicit map from paths
to byte contents, and SHA-256 (`hashlib`, external) is an arbitrary
function of the bytes, quantified in the theorems. -/

/-- One row of `processed_files`. -/
structure FileRecord where
  file_size : Nat
  file_hash : List Char
  records_processed : Nat
  processing_status : List Char
  error_message : Option (List Char)
  deriving DecidableEq, Repr

/-- The `processed_files` table. -/
abbrev FilesDB := List ((List Char × List Char) × FileRecord)

/-- `SELECT ... FROM processed_files WHERE file_name = %s AND file_path = %s`. -/
def filesLookup (db : FilesDB) (name path : List Char) : Option FileRecord :=
  (db.find? (fun e => e.1 == (name, path))).map (fun e => e.2)

/-- `FileTracker.is_file_processed`: a record exists for this name and
path (the stored status is not consulted). -/
def is_file_processed (db : FilesDB) (name path : List Char) : Bool :=
  (filesLookup db name path).isSome

/-- `FileTracker.is_file_changed`: no record, or a differing stored
(size, hash) pair. -/
def is_file_changed (db : FilesDB) (name path : List Char) (size : Nat)
    (hash : List Char) : Bool :=
  match filesLookup db name path with
  | none => true
  | some rec => size != rec.file_size || hash != rec.file_hash

/-- `FileTracker.should_process_file`. -/
def should_process_file (db : FilesDB) (fs : List Char → Option (List Nat))
    (hashFn : List Nat → List Char) (name path : List Char) : Bool :=
  match fs path with
  | none => false
  | some bytes =>
    !is_file_processed db name path ||
      is_file_changed db name path bytes.length (hashFn bytes)

/-- `INSERT ... ON DUPLICATE KEY UPDATE` on `processed_files`: replace
the row with this (unique) key in place, or append a fresh row. -/
def filesUpsert (db : FilesDB) (key : List Char × List Char) (rec : FileRecord) : FilesDB :=
  match db with
  | [] => [(key, rec)]
  | e :: tl => if e.1 == key then (key, rec) :: tl else e :: filesUpsert tl key rec

/-- `FileTracker.mark_file_processed`: recompute size and hash of the
current file and upsert the record; if the file cannot be read the
exception is caught and the table is left unchanged. -/
def mark_file_processed (db : FilesDB) (fs : List Char → Option (List Nat))
    (hashFn : List Nat → List Char) (name path : List Char) (records : Nat)
    (status : List Char) (err : Option (List Char)) : FilesDB :=
  match fs path with
  | none => db
  | some bytes =>
    filesUpsert db (name, path)
      { file_size := bytes.length, file_hash := hashFn bytes,
        records_processed := records, processing_status := status,
        error_message := err }

/-!  ## Idempotent writer (`src/etl/loader.py`)  -/

/-- A transaction in "database format" — the dictionary built by
`convert_to_database_format` / consumed by `MySQLDatabaseLoader`, with
the keys the loader reads. -/
structure DbTx where
  amount : ℚ := 0
  fee : ℚ := 0
  currency : List Char := lc (r"RWF")
  phone : Option (List Char) := none
  recipient_phone : Option (List Char) := none
  sender_name : Option (List Char) := none
  sender_phone : Option (List Char) := none
  recipient_name : Option (List Char) := none
  momo_code : Option (List Char) := none
  sender_momo_id : Option (List Char) := none
  agent_momo_number : Option (List Char) := none
  business_name : Option (List Char) := none
  new_balance : Option ℚ := none
  category : Option (List Char) := none
  transaction_type : List Char := []
  direction : List Char := []
  date : Option (List Char) := none
  reference : Option (List Char) := none
  type : List Char := []
  financial_transaction_id : Option (List Char) := none
  external_transaction_id : Option (List Char) := none
  confidence : ℚ := 0
  original_data : List Char := []
  original_message : List Char := []
  tags : List (List Char) := []
  deriving DecidableEq, Repr

/-- One row of the `transactions` table (the JSON side columns
`xml_attributes` / `processing_metadata` are presentational dumps of the
same dictionary and are not modelled as separate columns). The raw date
string is kept in place of the externally-parsed `transaction_date`. -/
structure TxRow where
  transaction_id : Nat
  external_transaction_id : Option (List Char)
  financial_transaction_id : Option (List Char)
  sender_user_id : Option Nat
  receiver_user_id : Option Nat
  amount : ℚ
  fee : ℚ
  currency : List Char
  category_id : Option Nat
  transaction_type : List Char
  direction : List Char
  status : List Char
  reference_number : Option (List Char)
  description : List Char
  sender_name : Option (List Char)
  sender_phone : Option (List Char)
  recipient_name : Option (List Char)
  recipient_phone : Option (List Char)
  momo_code : Option (List Char)
  sender_momo_id : Option (List Char)
  agent_momo_number : Option (List Char)
  business_name : Option (List Char)
  new_balance : Option ℚ
  confidence_score : ℚ
  raw_sms_data : List Char
  original_message : List Char
  transaction_date_src : Option (List Char)
  deriving DecidableEq, Repr

/-- The normalized MySQL tables touched by the loader, with the
auto-increment counters (MySQL row ids start at 1). -/
structure DbTables where
  users : List (Nat × List Char) := []
  next_user_id : Nat := 1
  categories : List (Nat × List Char) := []
  next_category_id : Nat := 1
  tags : List (Nat × List Char) := []
  next_tag_id : Nat := 1
  transaction_tags : List (Nat × Nat × Option Nat) := []
  transactions : List TxRow := []
  next_transaction_id : Nat := 1
  system_logs : List (Nat × Nat × Nat) := []
  deriving DecidableEq, Repr

/-- Per-run counters of `MySQLDatabaseLoader` (`loaded_count`,
`error_count`, `errors`). -/
structure LoaderRun where
  loaded_count : Nat := 0
  error_count : Nat := 0
  errors : List (List Char) := []
  deriving DecidableEq, Repr

/-- `MySQLDatabaseLoader._get_or_create_user`. -/
def get_or_create_user (db : DbTables) (phone : Option (List Char)) :
    DbTables × Option Nat :=
  match phone with
  | none => (db, none)
  | some p =>
    if p.isEmpty then (db, none)
    else
      match db.users.find? (fun u => u.2 == p) with
      | some u => (db, some u.1)
      | none =>
        ({ db with
            users := db.users ++ [(db.next_user_id, p)],
            next_user_id := db.next_user_id + 1 }, some db.next_user_id)

/-- `MySQLDatabaseLoader._get_or_create_category` (the `INSERT IGNORE` /
`lastrowid == 0` fallback collapses to get-or-insert in the
single-connection model). -/
def get_or_create_category (db : DbTables) (category_name : Option (List Char)) :
    DbTables × Option Nat :=
  match category_name with
  | none => (db, none)
  | some c =>
    if c.isEmpty then (db, none)
    else
      match db.categories.find? (fun e => e.2 == c) with
      | some e => (db, some e.1)
      | none =>
        ({ db with
            categories := db.categories ++ [(db.next_category_id, c)],
            next_category_id := db.next_category_id + 1 }, some db.next_category_id)

/-- `MySQLDatabaseLoader._get_or_create_tag`. -/
def get_or_create_tag (db : DbTables) (tag_name : List Char) : DbTables × Nat :=
  match db.tags.find? (fun e => e.2 == tag_name) with
  | some e => (db, e.1)
  | none =>
    ({ db with
        tags := db.tags ++ [(db.next_tag_id, tag_name)],
        next_tag_id := db.next_tag_id + 1 }, db.next_tag_id)

/-- `MySQLDatabaseLoader._add_transaction_tags` (`INSERT IGNORE` into
`transaction_tags`). -/
def add_transaction_tags (db : DbTables) (transaction_id : Nat)
    (tag_names : List (List Char)) (assigned_by : Option Nat) : DbTables :=
  tag_names.foldl
    (fun acc tag_name =>
      let g := get_or_create_tag acc tag_name
      if g.1.transaction_tags.any (fun e => e.1 == transaction_id && e.2.1 == g.2) then g.1
      else { g.1 with
              transaction_tags := g.1.transaction_tags ++ [(transaction_id, g.2, assigned_by)] })
    db

/-- `MySQLDatabaseLoader._determine_transaction_status`. -/
def determine_transaction_status (t : DbTx) : List Char :=
  let od := pyLower t.original_data
  if strIn (lc (r"success")) od || strIn (lc (r"completed")) od ||
      strIn (lc (r"successful")) od then lc (r"SUCCESS")
  else if strIn (lc (r"failed")) od || strIn (lc (r"error")) od ||
      strIn (lc (r"unsuccessful")) od then lc (r"FAILED")
  else if strIn (lc (r"pending")) od || strIn (lc (r"processing")) od then lc (r"PENDING")
  else lc (r"SUCCESS")

/-- `MySQLDatabaseLoader._insert_transaction` (loader.py lines 198-291):
when a (truthy) external transaction id is present and a row with the
same id exists, return the existing row's id without inserting;
otherwise insert a fresh row.  The trailing `lastrowid == 0` fallback of
the source is kept verbatim (it is unreachable: ids start at 1). -/
def insert_transaction (db : DbTables) (t : DbTx) (sender_user_id : Option Nat)
    (receiver_user_id : Option Nat) (category_id : Option Nat) : DbTables × Option Nat :=
  let dup :=
    match t.external_transaction_id with
    | some x =>
      if x.isEmpty then none
      else db.transactions.find? (fun (row : TxRow) => row.external_transaction_id == some x)
    | none => none
  match dup with
  | some row => (db, some row.transaction_id)
  | none =>
    let newId := db.next_transaction_id
    let row : TxRow :=
      { transaction_id := newId,
        external_transaction_id := t.external_transaction_id,
        financial_transaction_id := t.financial_transaction_id,
        sender_user_id := sender_user_id,
        receiver_user_id := receiver_user_id,
        amount := t.amount,
        fee := t.fee,
        currency := t.currency,
        category_id := category_id,
        transaction_type := t.transaction_type,
        direction := t.direction,
        status := determine_transaction_status t,
        reference_number := t.reference,
        description := t.type,
        sender_name := t.sender_name,
        sender_phone := t.sender_phone,
        recipient_name := t.recipient_name,
        recipient_phone := t.recipient_phone,
        momo_code := t.momo_code,
        sender_momo_id := t.sender_momo_id,
        agent_momo_number := t.agent_momo_number,
        business_name := t.business_name,
        new_balance := t.new_balance,
        confidence_score := t.confidence,
        raw_sms_data := t.original_data,
        original_message := t.original_message,
        transaction_date_src := t.date }
    let db' := { db with
                  transactions := db.transactions ++ [row],
                  next_transaction_id := newId + 1 }
    if newId == 0 then
      (db', (db'.transactions.find?
        (fun (r : TxRow) => r.external_transaction_id == t.external_transaction_id)).map
          (fun (r : TxRow) => r.transaction_id))
    else (db', some newId)

/-- `MySQLDatabaseLoader._process_transaction`. -/
def process_transaction (db : DbTables) (t : DbTx) : DbTables × Option Nat :=
  let u1 := get_or_create_user db t.phone
  let u2 := get_or_create_user u1.1 t.recipient_phone
  let c3 := get_or_create_category u2.1 t.category
  let i4 := insert_transaction c3.1 t u1.2 u2.2 c3.2
  match i4.2 with
  | some i =>
    if t.tags.isEmpty then (i4.1, some i)
    else (add_transaction_tags i4.1 i t.tags u1.2, some i)
  | none => (i4.1, none)

/-- `MySQLDatabaseLoader.load_transactions`: process each transaction,
counting an insert (or duplicate returning an id) as loaded, then append
the run's `system_logs` entry. -/
def load_transactions (db : DbTables) (txs : List DbTx) : DbTables × LoaderRun :=
  let step := txs.foldl
    (fun (acc : DbTables × LoaderRun) t =>
      let pr := process_transaction acc.1 t
      match pr.2 with
      | some _ => (pr.1, { acc.2 with loaded_count := acc.2.loaded_count + 1 })
      | none => (pr.1, acc.2))
    (db, {})
  ({ step.1 with
      system_logs := step.1.system_logs ++
        [(txs.length, step.2.loaded_count, step.2.error_count)] }, step.2)

/-!  ## Pipeline (`src/etl/run.py`)  -/

/-- One `<sms>` element of the backup archive: the attributes the
pipeline reads. -/
structure SmsRec where
  body : List Char
  address : List Char
  date_attr : List Char
  readable_date : List Char
  deriving DecidableEq, Repr

/-- `_is_momo_sms` (run.py lines 98-113). -/
def is_momo_sms (body address : List Char) : Bool :=
  let momo_addresses := [lc (r"M-Money"), lc (r"MTN"), lc (r"MoMo"), lc (r"Mobile Money")]
  if momo_addresses.any (fun a => strIn (pyLower a) (pyLower address)) then true
  else
    let momo_keywords :=
      [lc (r"RWF"), lc (r"UGX"), lc (r"deposit"), lc (r"withdraw"), lc (r"transfer"),
        lc (r"payment"), lc (r"balance"), lc (r"mobile money"), lc (r"momo"),
        lc (r"transaction"), lc (r"TxId"), lc (r"received"), lc (r"sent"),
        lc (r"completed"), lc (r"fee"), lc (r"new balance")]
    momo_keywords.any (fun k => strIn (pyLower k) (pyLower body))

/-- Python `int(s)` on the millisecond attribute: optional surrounding
whitespace, optional sign, a nonempty digit string; `none` models the
caught `ValueError`. -/
def pyInt? (s : List Char) : Option ℤ :=
  let t := pyStrip s
  match t with
  | '-' :: ds => if !ds.isEmpty && ds.all isDigitB then some (-(natOfDigits ds : ℤ)) else none
  | '+' :: ds => if !ds.isEmpty && ds.all isDigitB then some (natOfDigits ds : ℤ) else none
  | ds => if !ds.isEmpty && ds.all isDigitB then some (natOfDigits ds : ℤ) else none

/-- `parse_xml_with_enhanced_parser` (run.py lines 42-96) after the XML
library has produced the `<sms>` elements: filter by `_is_momo_sms`,
derive the hint timestamp (`datetime.fromtimestamp(ms/1000).isoformat()`
is the external `isoOfMillis`), and feed each body to `parse_message`. -/
def parse_xml_enhanced (isoOfMillis : ℤ → List Char) (smss : List SmsRec) :
    MTNParserState × List ParsedTransaction :=
  smss.foldl
    (fun (acc : MTNParserState × List ParsedTransaction) sms =>
      if !is_momo_sms sms.body sms.address then acc
      else
        let timestamp :=
          if !sms.date_attr.isEmpty then (pyInt? sms.date_attr).map isoOfMillis
          else if !sms.readable_date.isEmpty then some sms.readable_date
          else none
        let pr := parse_message acc.1 sms.body timestamp
        match pr.2 with
        | some t => (pr.1, acc.2 ++ [t])
        | none => (pr.1, acc.2))
    ({}, [])

/-- `convert_to_database_format` (run.py lines 115-168).  The loop body
evaluates `transaction.status` (run.py line 128), but the
`ParsedTransaction` dataclass defines no `status` field, so the first
iteration raises `AttributeError`; `none` models that exception.  On an
empty list the loop body never runs and the empty result is returned. -/
def convert_to_database_format (ts : List ParsedTransaction) : Option (List DbTx) :=
  match ts with
  | [] => some []
  | _ :: _ => none

/-- The persistent stores the pipeline touches: the `processed_files`
table and the normalized transaction tables. -/
structure PipeState where
  files_db : FilesDB := []
  db : DbTables := {}
  deriving DecidableEq, Repr

/-- The observable outcome of one pipeline invocation: the summary's
`status` string and how many `<sms>` elements were read from the
archive (0 when the file is skipped without being opened). -/
structure RunOutcome where
  status : List Char
  msgs_read : Nat
  deriving DecidableEq, Repr

/-- The `AttributeError` message raised at run.py line 128 (its quoting
of the class and attribute names is elided). -/
def attr_error_message : List Char :=
  lc (r"ParsedTransaction object has no attribute status")

/-- `run_enhanced_etl_pipeline` (run.py lines 170-290).  External
collaborators are parameters: `fs` maps a path to the file's bytes,
`hashFn` is SHA-256, `parseXml` is `xml.etree.ElementTree` (returning
`none` when parsing raises), `isoOfMillis` is the timestamp formatter.
Any exception in the processing branch lands in the `except` clause,
which marks the file `FAILED` with 0 records and returns an error
summary. -/
def run_enhanced_etl_pipeline (parseXml : List Nat → Option (List SmsRec))
    (hashFn : List Nat → List Char) (isoOfMillis : ℤ → List Char)
    (fs : List Char → Option (List Nat)) (st : PipeState)
    (fname fpath : List Char) : PipeState × RunOutcome :=
  if !should_process_file st.files_db fs hashFn fname fpath then
    (st, { status := lc (r"skipped"), msgs_read := 0 })
  else
    match fs fpath with
    | none =>
      let files' := mark_file_processed st.files_db fs hashFn fname fpath 0
        (lc (r"FAILED")) (some (lc (r"file read error")))
      ({ st with files_db := files' }, { status := lc (r"error"), msgs_read := 0 })
    | some bytes =>
      match parseXml bytes with
      | none =>
        let files' := mark_file_processed st.files_db fs hashFn fname fpath 0
          (lc (r"FAILED")) (some (lc (r"xml parse error")))
        ({ st with files_db := files' }, { status := lc (r"error"), msgs_read := 0 })
      | some smss =>
        let parsed := (parse_xml_enhanced isoOfMillis smss).2
        if parsed.isEmpty then (st, { status := lc (r"warning"), msgs_read := smss.length })
        else
          match convert_to_database_format parsed with
          | none =>
            let files' := mark_file_processed st.files_db fs hashFn fname fpath 0
              (lc (r"FAILED")) (some attr_error_message)
            ({ st with files_db := files' },
              { status := lc (r"error"), msgs_read := smss.length })
          | some dbtxs =>
            let ld := load_transactions st.db dbtxs
            let files' := mark_file_processed st.files_db fs hashFn fname fpath
              ld.2.loaded_count (lc (r"SUCCESS")) none
            ({ files_db := files', db := ld.1 },
              { status := lc (r"success"), msgs_read := smss.length })

/-!  ## Categorizer (`src/etl/categorize.py`)

Transaction dictionaries are modelled as association lists from key to a
Python value (string, number or `None`); `dSet` is in-place assignment,
`dGet?`/`dGetD` are `d[k]` / `d.get(k, default)`.  A result of `none`
from a categorizer function models an uncaught `TypeError` /
`AttributeError` on a value of unexpected shape. -/

/-- A Python value stored in a transaction dictionary. -/
inductive PyVal where
  | vStr : List Char → PyVal
  | vNum : ℚ → PyVal
  | vNone : PyVal
  deriving DecidableEq, Repr

/-- A transaction dictionary. -/
abbrev Dict := List (List Char × PyVal)

/-- `d.get(k)`. -/
def dGet? (d : Dict) (k : List Char) : Option PyVal :=
  (d.find? (fun p => p.1 == k)).map (fun p => p.2)

/-- `d.get(k, default)`. -/
def dGetD (d : Dict) (k : List Char) (v0 : PyVal) : PyVal :=
  (dGet? d k).getD v0

/-- `d[k] = v`: replace the (unique) key in place, or append. -/
def dSet (d : Dict) (k : List Char) (v : PyVal) : Dict :=
  match d with
  | [] => [(k, v)]
  | p :: tl => if p.1 == k then (k, v) :: tl else p :: dSet tl k v

/-- Python truthiness of the dictionary values. -/
def pyTruthy : PyVal → Bool
  | .vStr s => !s.isEmpty
  | .vNum q => q != 0
  | .vNone => false

/-- Python `str()` of a dictionary value.  Strings and `None` are exact;
for the numbers that can appear in the joined text fields the integral
float representation `d.0` is exact, and non-integral floats (whose
shortest-roundtrip decimal representation is a property of binary
floating point) are rendered as `num/den` — no claim depends on that
case. -/
def strOfPyVal : PyVal → List Char
  | .vStr s => s
  | .vNone => lc (r"None")
  | .vNum q =>
    if q.den == 1 then
      (if q.num < 0 then lc (r"-") else []) ++ Nat.toDigits 10 q.num.natAbs ++ lc (r".0")
    else
      (if q.num < 0 then lc (r"-") else []) ++ Nat.toDigits 10 q.num.natAbs ++
        lc (r"/") ++ Nat.toDigits 10 q.den

/-- The five keys joined into the analysis text (categorize.py lines
72-78, in order). -/
def textFieldKeys : List (List Char) :=
  [lc (r"type"), lc (r"status"), lc (r"reference"), lc (r"original_data"), lc (r"raw_data")]

/-- `' '.join(str(field) for field in text_fields if field).lower()`. -/
def combined_text (d : Dict) : List Char :=
  pyLower (List.intercalate (lc (r" "))
    (((textFieldKeys.map (fun k => dGetD d k (PyVal.vStr []))).filter pyTruthy).map strOfPyVal))

/-- Word/non-word boundary between two optional adjacent characters
(out-of-range counts as non-word), as `\b` tests it. -/
def wbBoundary (a b : Option Char) : Bool :=
  (match a with | some c => isWordChar c | none => false) !=
    (match b with | some c => isWordChar c | none => false)

/-- Search for `\b kw \b` (with `kw` a literal): try each position,
tracking the preceding character for the left boundary. -/
def wbSearchAux (kw : List Char) : Option Char → List Char → Bool
  | prev, [] =>
    kw.isPrefixOf [] && wbBoundary prev none && wbBoundary kw.getLast? none
  | prev, c :: t =>
    (kw.isPrefixOf (c :: t) && wbBoundary prev (some c) &&
      wbBoundary kw.getLast? (((c :: t).drop kw.length).head?)) ||
    wbSearchAux kw (some c) t

/-- `re.search(r'\b' + re.escape(keyword) + r'\b', text)` as a Boolean. -/
def wordBoundSearch (kw text : List Char) : Bool := wbSearchAux kw none text

/-- `TransactionCategorizer._calculate_category_score` (categorize.py
lines 150-172): each keyword contributes 1.0 for containment, 0.5 for a
word-bounded match, and another 0.3 for containment. -/
def calculate_category_score (text : List Char) (keywords : List (List Char)) : ℚ :=
  if text.isEmpty || keywords.isEmpty then 0
  else
    let tl := pyLower text
    keywords.foldl
      (fun score kw =>
        let s1 := if strIn kw tl then score + 1 else score
        let s2 := if wordBoundSearch kw tl then s1 + 1/2 else s1
        if strIn kw tl then s2 + 3/10 else s2)
      0

/-- `TRANSACTION_CATEGORIES` from `src/etl/config.py`, in insertion
order. -/
def transactionCategories : List (List Char × List (List Char)) :=
  [ (lc (r"DEPOSIT"), [lc (r"deposit"), lc (r"credit"), lc (r"topup"), lc (r"receive")]),
    (lc (r"WITHDRAWAL"), [lc (r"withdraw"), lc (r"debit"), lc (r"cashout"), lc (r"send")]),
    (lc (r"TRANSFER"), [lc (r"transfer"), lc (r"send_money"), lc (r"mobile_money")]),
    (lc (r"PAYMENT"), [lc (r"payment"), lc (r"bill"), lc (r"utility"), lc (r"merchant")]),
    (lc (r"DATA_BUNDLE"), [lc (r"data bundle"), lc (r"data_bundle"), lc (r"bundle"),
      lc (r"internet"), lc (r"data"), lc (r"mtn data"), lc (r"yello"), lc (r"*164*")]),
    (lc (r"AIRTIME"), [lc (r"airtime"), lc (r"credit"), lc (r"topup"), lc (r"recharge")]),
    (lc (r"QUERY"), [lc (r"balance"), lc (r"statement"), lc (r"inquiry")]),
    (lc (r"OTHER"), [lc (r"other"), lc (r"unknown"), lc (r"misc")]) ]

/-- `category_scores[c] = score` (first write of a fresh key). -/
def scoreSet (scores : List (List Char × ℚ)) (k : List Char) (v : ℚ) :
    List (List Char × ℚ) :=
  match scores with
  | [] => [(k, v)]
  | p :: tl => if p.1 == k then (k, v) :: tl else p :: scoreSet tl k v

/-- `category_scores[c] = category_scores.get(c, 0) + v`. -/
def scoreAdd (scores : List (List Char × ℚ)) (k : List Char) (v : ℚ) :
    List (List Char × ℚ) :=
  match scores with
  | [] => [(k, v)]
  | p :: tl => if p.1 == k then (k, p.2 + v) :: tl else p :: scoreAdd tl k v

/-- `max(category_scores, key=category_scores.get)`: the first entry (in
insertion order) attaining the maximal value. -/
def bestEntry : List (List Char × ℚ) → Option (List Char × ℚ)
  | [] => none
  | e :: rest => some (rest.foldl (fun b p => if p.2 > b.2 then p else b) e)

/-- `TransactionCategorizer._categorize_by_amount` (categorize.py lines
174-209).  `none` models the `TypeError` of comparing a truthy
non-number with `0`. -/
def categorize_by_amount (amount : PyVal) (text : List Char) :
    Option (Option (List Char) × ℚ) :=
  match amount with
  | .vNone => some (none, 0)
  | .vStr s => if s.isEmpty then some (none, 0) else none
  | .vNum q =>
    if q == 0 then some (none, 0)
    else if q ≤ 0 then some (none, 0)
    else
      let tl := pyLower text
      if [lc (r"data bundle"), lc (r"data_bundle"), lc (r"bundle"), lc (r"internet"),
          lc (r"data"), lc (r"mtn data"), lc (r"yello"), lc (r"*164*")].any
          (fun w => strIn w tl) then
        some (some (lc (r"DATA_BUNDLE")), 9/10)
      else if [lc (r"airtime"), lc (r"credit"), lc (r"topup"), lc (r"recharge")].any
          (fun w => strIn w tl) then
        some (some (lc (r"AIRTIME")), 4/5)
      else if q < 1000 then
        if [lc (r"balance"), lc (r"query"), lc (r"statement"), lc (r"check")].any
            (fun w => strIn w tl) then
          some (some (lc (r"QUERY")), 4/5)
        else some (some (lc (r"OTHER")), 3/10)
      else if q < 100000 then
        if [lc (r"deposit"), lc (r"credit"), lc (r"receive")].any (fun w => strIn w tl) then
          some (some (lc (r"DEPOSIT")), 3/5)
        else if [lc (r"withdraw"), lc (r"debit"), lc (r"send")].any (fun w => strIn w tl) then
          some (some (lc (r"WITHDRAWAL")), 3/5)
        else some (some (lc (r"TRANSFER")), 2/5)
      else
        if [lc (r"payment"), lc (r"bill"), lc (r"merchant"), lc (r"utility")].any
            (fun w => strIn w tl) then
          some (some (lc (r"PAYMENT")), 7/10)
        else some (some (lc (r"TRANSFER")), 1/2)

/-- `TransactionCategorizer._categorize_by_phone` (categorize.py lines
211-227).  `none` models the `AttributeError` of `.startswith` on a
number. -/
def categorize_by_phone (phone : PyVal) (text : List Char) :
    Option (Option (List Char) × ℚ) :=
  match phone with
  | .vNone => some (none, 0)
  | .vNum q => if q == 0 then some (none, 0) else none
  | .vStr p =>
    if p.isEmpty then some (none, 0)
    else
      let tl := pyLower text
      if ((lc (r"+256700")).isPrefixOf p || (lc (r"+256701")).isPrefixOf p) &&
          [lc (r"payment"), lc (r"bill"), lc (r"merchant")].any (fun w => strIn w tl) then
        some (some (lc (r"PAYMENT")), 3/5)
      else if (lc (r"+256700")).isPrefixOf p &&
          [lc (r"bank"), lc (r"account")].any (fun w => strIn w tl) then
        some (some (lc (r"TRANSFER")), 1/2)
      else some (none, 0)

/-- The literal `\*164\*S\*Y'ello,A transaction of` head of the first
SMS pattern (the apostrophe is spelled via its code point). -/
def yello_head : List Char :=
  lc (r"*164*S*Y") ++ [Char.ofNat 39] ++ lc (r"ello,A transaction of")

/-- `\*164\*S\*Y'ello,A transaction of.*by Data Bundle MTN` -/
def re_sms_bundle : RE :=
  reSeq [RE.lit yello_head, RE.star dotAny, RE.lit (lc (r"by Data Bundle MTN"))]

/-- `External Transaction Id: (\d+)` (mixed case, on the raw text). -/
def re_ext_id_mixed : RE :=
  reSeq [RE.lit (lc (r"External Transaction Id: ")), RE.group 1 (RE.plus isDigitB)]

/-- `\*165\*S\*.*transferred to.*from \d+` -/
def re_sms_transfer_check : RE :=
  reSeq [RE.lit (lc (r"*165*S*")), RE.star dotAny, RE.lit (lc (r"transferred to")),
    RE.star dotAny, RE.lit (lc (r"from ")), RE.plus isDigitB]

/-- `transferred to (.+?) \((\+?25[06]\d{9}|\d{9,10})\) from (\d+)` -/
def re_sms_transfer_extract : RE :=
  reSeq [RE.lit (lc (r"transferred to ")), RE.group 1 (RE.plusLazy dotAny),
    RE.lit (lc (r" (")),
    RE.group 2 (RE.alt
      (reSeq [RE.opt (RE.lit (lc (r"+"))), RE.lit (lc (r"25")),
        RE.cls (fun c => c == '0' || c == '6'), dN 9])
      (RE.rep 9 10 isDigitB)),
    RE.lit (lc (r") from ")), RE.group 3 (RE.plus isDigitB)]

/-- `You have deposited.*to your account` -/
def re_sms_deposit : RE :=
  reSeq [RE.lit (lc (r"You have deposited")), RE.star dotAny,
    RE.lit (lc (r"to your account"))]

/-- `TransactionCategorizer._categorize_by_sms_patterns` (categorize.py
lines 109-148): pattern dispatch on `original_data`, writing matched
details directly into the transaction dictionary.  Returns the possibly
mutated dictionary with the category and confidence. -/
def categorize_by_sms_patterns (d : Dict) : Option (Dict × Option (List Char) × ℚ) :=
  match dGetD d (lc (r"original_data")) (PyVal.vStr []) with
  | .vNone => some (d, none, 0)
  | .vNum q => if q == 0 then some (d, none, 0) else none
  | .vStr od =>
    if od.isEmpty then some (d, none, 0)
    else if (reSearch re_sms_bundle od).isSome then
      let d1 := dSet d (lc (r"type")) (PyVal.vStr (lc (r"Purchase")))
      let d2 := dSet d1 (lc (r"category")) (PyVal.vStr (lc (r"DATA_BUNDLE")))
      let d3 := dSet d2 (lc (r"recipient_name")) (PyVal.vStr (lc (r"Self")))
      let d4 :=
        match search1 re_ext_id_mixed od with
        | some pid => dSet d3 (lc (r"personal_id")) (PyVal.vStr pid)
        | none => d3
      some (d4, some (lc (r"DATA_BUNDLE")), 19/20)
    else if (reSearch re_sms_transfer_check od).isSome then
      let d4 :=
        match reSearch re_sms_transfer_extract od with
        | some caps =>
          match capGet caps 1, capGet caps 3, capGet caps 2 with
          | some g1, some g3, some g2 =>
            let e1 := dSet d (lc (r"recipient_name")) (PyVal.vStr (pyStrip g1))
            let e2 := dSet e1 (lc (r"personal_id")) (PyVal.vStr g3)
            dSet e2 (lc (r"phone")) (PyVal.vStr g2)
          | _, _, _ => d
        | none => d
      let d5 := dSet d4 (lc (r"type")) (PyVal.vStr (lc (r"Transfer")))
      some (d5, some (lc (r"TRANSFER")), 19/20)
    else if (reSearch re_sms_deposit od).isSome then
      let d1 := dSet d (lc (r"type")) (PyVal.vStr (lc (r"Deposit")))
      let d2 := dSet d1 (lc (r"recipient_name")) (PyVal.vStr (lc (r"Self")))
      let d3 := dSet d2 (lc (r"personal_id")) (PyVal.vStr (lc (r"Self")))
      some (d3, some (lc (r"DEPOSIT")), 19/20)
    else some (d, none, 0)

/-- The keyword-rule pass of `_determine_category` (categorize.py lines
82-88): each category whose keyword score is above zero enters the
score dictionary, in `TRANSACTION_CATEGORIES` order. -/
def keyword_scores (text : List Char) : List (List Char × ℚ) :=
  transactionCategories.foldl
    (fun acc p =>
      let score := calculate_category_score text p.2
      if score > 0 then scoreSet acc p.1 score else acc)
    []

/-- One heuristic contribution to the score dictionary (categorize.py
lines 90-99): `if cat and conf > 0: scores[cat] = scores.get(cat, 0) + conf`. -/
def applyContribution (ks : List (List Char × ℚ)) (oc : Option (List Char)) (conf : ℚ) :
    List (List Char × ℚ) :=
  match oc with
  | some c => if !c.isEmpty && conf > 0 then scoreAdd ks c conf else ks
  | none => ks

/-- The `category_scores` dictionary built by `_determine_category`
(categorize.py lines 82-99): keyword scores above zero, then the
amount-based and phone-based contributions; `none` models an exception
from the amount or phone helper. -/
def categoryScores (d1 : Dict) : Option (List (List Char × ℚ)) :=
  let text := combined_text d1
  match categorize_by_amount (dGetD d1 (lc (r"amount")) (PyVal.vNum 0)) text with
  | none => none
  | some acp =>
    let s2 := applyContribution (keyword_scores text) acp.1 acp.2
    match categorize_by_phone (dGetD d1 (lc (r"phone")) (PyVal.vStr [])) text with
    | none => none
    | some pcp => some (applyContribution s2 pcp.1 pcp.2)

/-- The keyword / amount / phone scoring path of `_determine_category`
(categorize.py lines 71-107), run on the (possibly already mutated)
dictionary: pick the best-scoring category with confidence
`min(score/2, 1.0)`, defaulting to UNKNOWN with confidence 0. -/
def determine_by_scores (d1 : Dict) : Option (Dict × List Char × ℚ) :=
  match categoryScores d1 with
  | none => none
  | some s3 =>
    match bestEntry s3 with
    | some bb => some (d1, bb.1, min (bb.2 / 2) 1)
    | none => some (d1, lc (r"UNKNOWN"), 0)

/-- `TransactionCategorizer._determine_category` (categorize.py lines
64-107): SMS patterns first (taking the result when the confidence
exceeds 0.8), then the scoring path. -/
def determine_category (d : Dict) : Option (Dict × List Char × ℚ) :=
  match categorize_by_sms_patterns d with
  | none => none
  | some (d1, smsCat, smsConf) =>
    match smsCat with
    | some c =>
      if !c.isEmpty && smsConf > 4/5 then some (d1, c, smsConf)
      else determine_by_scores d1
    | none => determine_by_scores d1

/-- `TransactionCategorizer.categorize_transaction` (categorize.py lines
51-62): copy the input, determine category and confidence (which may
mutate the original input in place), and annotate the copy.  Returns
(the input dictionary as the caller sees it afterwards, the returned
annotated copy); `now` is `datetime.now().isoformat()`. -/
def categorize_transaction (now : List Char) (d : Dict) : Option (Dict × Dict) :=
  let categorized := d
  match determine_category d with
  | none => none
  | some (dm, category, confidence) =>
    let out := dSet (dSet (dSet categorized (lc (r"category")) (PyVal.vStr category))
      (lc (r"category_confidence")) (PyVal.vNum confidence))
      (lc (r"categorized_at")) (PyVal.vStr now)
    some (dm, out)

/-!  ## Auxiliary definitions used by the theorems  -/

/-- First-match-wins evaluation of an ordered rule list (the shape of the
classifier's `if`/`elif` chain). -/
def firstRuleMatch (rules : List ((List Char → Bool) × List Char)) (m : List Char) :
    List Char :=
  match rules with
  | [] => lc (r"UNKNOWN")
  | rb :: rest => if rb.1 m then rb.2 else firstRuleMatch rest m

/-- Concrete categorizer witness input: a deposit-pattern SMS dict. -/
def catW_now : List Char := lc (r"2025-01-01T00:00:00")

def catW_in : Dict :=
  [(lc (r"original_data"),
    PyVal.vStr (lc (r"You have deposited 100 to your account")))]

def catW_mut : Dict :=
  dSet (dSet (dSet catW_in (lc (r"type")) (PyVal.vStr (lc (r"Deposit"))))
    (lc (r"recipient_name")) (PyVal.vStr (lc (r"Self"))))
    (lc (r"personal_id")) (PyVal.vStr (lc (r"Self")))

def catW_out : Dict :=
  dSet (dSet (dSet catW_in (lc (r"category")) (PyVal.vStr (lc (r"DEPOSIT"))))
    (lc (r"category_confidence")) (PyVal.vNum (19/20)))
    (lc (r"categorized_at")) (PyVal.vStr catW_now)

/-- Number of stored transaction rows carrying a given external
transaction id. -/
def countExt (rows : List TxRow) (x : List Char) : Nat :=
  (rows.filter (fun row => row.external_transaction_id == some x)).length

/-!  # Theorems

Helper lemmas first, then one theorem per claim (with witnesses and
counterexamples as required). -/

theorem pyFloat?_nonneg (s : List Char) (q : ℚ) (h : pyFloat? s = some q) : 0 ≤ q := by
  simp only [pyFloat?] at h
  split at h
  · split at h
    · split at h
      · exact absurd h (by simp)
      · obtain rfl := Option.some.inj h
        positivity
    · split at h
      · obtain rfl := Option.some.inj h
        positivity
      · exact absurd h (by simp)
  · exact absurd h (by simp)

theorem pyFloatC_nonneg (s : List Char) (q : ℚ) (h : pyFloatC s = some q) : 0 ≤ q :=
  pyFloat?_nonneg _ _ h

theorem identify_eq_firstRuleMatch (m : List Char) :
    identify_message_type m = firstRuleMatch classifierRules m := rfl

theorem firstRuleMatch_eq_find (rules : List ((List Char → Bool) × List Char))
    (m : List Char) :
    firstRuleMatch rules m =
      ((rules.find? (fun rb => rb.1 m)).map Prod.snd).getD (lc (r"UNKNOWN")) := by
  induction rules with
  | nil => rfl
  | cons rb rest ih =>
    simp only [firstRuleMatch, List.find?]
    cases hrb : rb.1 m
    · simpa [hrb] using ih
    · simp [hrb]

theorem classifierRules_kind_mem : ∀ rb ∈ classifierRules, rb.2 ∈ messageKinds := by
  intro rb hmem
  fin_cases hmem <;> decide

theorem parse_incoming_money_bounds (m : List Char) (ts : Option (List Char))
    (t : ParsedTransaction) (h : parse_incoming_money m ts = some t) :
    0 ≤ t.amount ∧ 0 ≤ t.confidence ∧ t.confidence ≤ 1 := by
  simp only [parse_incoming_money, Option.bind_eq_some, Option.some.injEq] at h
  obtain ⟨amt, h1, amount, h2, nb, h3, h4⟩ := h
  subst h4
  refine ⟨pyFloatC_nonneg _ _ h2, by norm_num, by norm_num⟩

theorem parse_payment_momo_code_bounds (m : List Char) (ts : Option (List Char))
    (t : ParsedTransaction) (h : parse_payment_momo_code m ts = some t) :
    0 ≤ t.amount ∧ 0 ≤ t.confidence ∧ t.confidence ≤ 1 := by
  simp only [parse_payment_momo_code, Option.bind_eq_some, Option.some.injEq] at h
  obtain ⟨amt, h1, amount, h2, rc, hrc, nb, h3, fee, h4, h5⟩ := h
  subst h5
  refine ⟨pyFloatC_nonneg _ _ h2, by norm_num, by norm_num⟩

theorem parse_deposit_agent_bounds (m : List Char) (ts : Option (List Char))
    (t : ParsedTransaction) (h : parse_deposit_agent m ts = some t) :
    0 ≤ t.amount ∧ 0 ≤ t.confidence ∧ t.confidence ≤ 1 := by
  simp only [parse_deposit_agent, Option.bind_eq_some, Option.some.injEq] at h
  obtain ⟨amt, h1, amount, h2, nb, h3, h4⟩ := h
  subst h4
  refine ⟨pyFloatC_nonneg _ _ h2, by norm_num, by norm_num⟩

theorem parse_cash_deposit_bounds (m : List Char) (ts : Option (List Char))
    (t : ParsedTransaction) (h : parse_cash_deposit m ts = some t) :
    0 ≤ t.amount ∧ 0 ≤ t.confidence ∧ t.confidence ≤ 1 := by
  simp only [parse_cash_deposit, Option.bind_eq_some, Option.some.injEq] at h
  obtain ⟨amt, h1, amount, h2, nb, h3, h4⟩ := h
  subst h4
  refine ⟨pyFloatC_nonneg _ _ h2, by norm_num, by norm_num⟩

theorem parse_bank_transfer_bounds (m : List Char) (ts : Option (List Char))
    (t : ParsedTransaction) (h : parse_bank_transfer m ts = some t) :
    0 ≤ t.amount ∧ 0 ≤ t.confidence ∧ t.confidence ≤ 1 := by
  simp only [parse_bank_transfer, Option.bind_eq_some, Option.some.injEq] at h
  obtain ⟨amt, h1, amount, h2, nb, h3, h4⟩ := h
  subst h4
  refine ⟨pyFloatC_nonneg _ _ h2, by norm_num, by norm_num⟩

theorem parse_generic_deposit_bounds (m : List Char) (ts : Option (List Char))
    (t : ParsedTransaction) (h : parse_generic_deposit m ts = some t) :
    0 ≤ t.amount ∧ 0 ≤ t.confidence ∧ t.confidence ≤ 1 := by
  simp only [parse_generic_deposit, Option.bind_eq_some, Option.some.injEq] at h
  obtain ⟨amt, h1, amount, h2, nb, h3, h4⟩ := h
  subst h4
  refine ⟨pyFloatC_nonneg _ _ h2, by norm_num, by norm_num⟩

theorem parse_deposit_other_bounds (m : List Char) (ts : Option (List Char))
    (t : ParsedTransaction) (h : parse_deposit_other m ts = some t) :
    0 ≤ t.amount ∧ 0 ≤ t.confidence ∧ t.confidence ≤ 1 := by
  simp only [parse_deposit_other] at h
  split_ifs at h
  · exact parse_deposit_agent_bounds _ _ _ h
  · exact parse_cash_deposit_bounds _ _ _ h
  · exact parse_bank_transfer_bounds _ _ _ h
  · exact parse_generic_deposit_bounds _ _ _ h

theorem parse_transfer_mobile_bounds (m : List Char) (ts : Option (List Char))
    (t : ParsedTransaction) (h : parse_transfer_mobile m ts = some t) :
    0 ≤ t.amount ∧ 0 ≤ t.confidence ∧ t.confidence ≤ 1 := by
  simp only [parse_transfer_mobile, Option.bind_eq_some, Option.some.injEq] at h
  obtain ⟨amt, h1, amount, h2, rc, hrc, fee, h3, nb, h4, h5⟩ := h
  subst h5
  refine ⟨pyFloatC_nonneg _ _ h2, by norm_num, by norm_num⟩

theorem parse_airtime_purchase_bounds (m : List Char) (ts : Option (List Char))
    (t : ParsedTransaction) (h : parse_airtime_purchase m ts = some t) :
    0 ≤ t.amount ∧ 0 ≤ t.confidence ∧ t.confidence ≤ 1 := by
  simp only [parse_airtime_purchase, Option.bind_eq_some, Option.some.injEq] at h
  obtain ⟨amt, h1, amount, h2, nb, h3, fee, h4, h5⟩ := h
  subst h5
  refine ⟨pyFloatC_nonneg _ _ h2, by norm_num, by norm_num⟩

theorem parse_data_bundle_purchase_bounds (m : List Char) (ts : Option (List Char))
    (t : ParsedTransaction) (h : parse_data_bundle_purchase m ts = some t) :
    0 ≤ t.amount ∧ 0 ≤ t.confidence ∧ t.confidence ≤ 1 := by
  simp only [parse_data_bundle_purchase, Option.bind_eq_some, Option.some.injEq] at h
  obtain ⟨amt, h1, amount, h2, nb, h3, fee, h4, h5⟩ := h
  subst h5
  refine ⟨pyFloatC_nonneg _ _ h2, by norm_num, by norm_num⟩

theorem parse_business_payment_bounds (m : List Char) (ts : Option (List Char))
    (t : ParsedTransaction) (h : parse_business_payment m ts = some t) :
    0 ≤ t.amount ∧ 0 ≤ t.confidence ∧ t.confidence ≤ 1 := by
  simp only [parse_business_payment, Option.bind_eq_some, Option.some.injEq] at h
  obtain ⟨amt, h1, amount, h2, nb, h3, fee, h4, h5⟩ := h
  subst h5
  refine ⟨pyFloatC_nonneg _ _ h2, by norm_num, by norm_num⟩

theorem parse_cash_withdrawal_bounds (m : List Char) (ts : Option (List Char))
    (t : ParsedTransaction) (h : parse_cash_withdrawal m ts = some t) :
    0 ≤ t.amount ∧ 0 ≤ t.confidence ∧ t.confidence ≤ 1 := by
  simp only [parse_cash_withdrawal, Option.bind_eq_some, Option.some.injEq] at h
  obtain ⟨amt, h1, amount, h2, nb, h3, fee, h4, h5⟩ := h
  subst h5
  refine ⟨pyFloatC_nonneg _ _ h2, by norm_num, by norm_num⟩

theorem parse_transfer_imbank_bounds (m : List Char) (ts : Option (List Char))
    (t : ParsedTransaction) (h : parse_transfer_imbank m ts = some t) :
    0 ≤ t.amount ∧ 0 ≤ t.confidence ∧ t.confidence ≤ 1 := by
  simp only [parse_transfer_imbank, Option.bind_eq_some, Option.some.injEq] at h
  obtain ⟨amt, h1, amount, h2, h3⟩ := h
  subst h3
  refine ⟨pyFloatC_nonneg _ _ h2, by norm_num, by norm_num⟩

theorem parse_payment_alternative_bounds (m : List Char) (ts : Option (List Char))
    (t : ParsedTransaction) (h : parse_payment_alternative m ts = some t) :
    0 ≤ t.amount ∧ 0 ≤ t.confidence ∧ t.confidence ≤ 1 := by
  simp only [parse_payment_alternative, Option.bind_eq_some, Option.some.injEq] at h
  obtain ⟨amt, h1, amount, h2, nb, h3, fee, h4, h5⟩ := h
  subst h5
  refine ⟨pyFloatC_nonneg _ _ h2, by norm_num, by norm_num⟩

theorem parse_failed_transaction_bounds (m : List Char) (ts : Option (List Char))
    (t : ParsedTransaction) (h : parse_failed_transaction m ts = some t) :
    0 ≤ t.amount ∧ 0 ≤ t.confidence ∧ t.confidence ≤ 1 := by
  simp only [parse_failed_transaction, Option.bind_eq_some, Option.some.injEq] at h
  obtain ⟨amt, h1, amount, h2, h3⟩ := h
  subst h3
  refine ⟨pyFloatC_nonneg _ _ h2, by norm_num, by norm_num⟩

theorem parse_reversal_bounds (m : List Char) (ts : Option (List Char))
    (t : ParsedTransaction) (h : parse_reversal m ts = some t) :
    0 ≤ t.amount ∧ 0 ≤ t.confidence ∧ t.confidence ≤ 1 := by
  simp only [parse_reversal, Option.bind_eq_some, Option.some.injEq] at h
  obtain ⟨amt, h1, amount, h2, nb, h3, h4⟩ := h
  subst h4
  refine ⟨pyFloatC_nonneg _ _ h2, by norm_num, by norm_num⟩

theorem parse_deposit_alternative_bounds (m : List Char) (ts : Option (List Char))
    (t : ParsedTransaction) (h : parse_deposit_alternative m ts = some t) :
    0 ≤ t.amount ∧ 0 ≤ t.confidence ∧ t.confidence ≤ 1 := by
  simp only [parse_deposit_alternative, Option.bind_eq_some, Option.some.injEq] at h
  obtain ⟨amt, h1, amount, h2, h3⟩ := h
  subst h3
  refine ⟨pyFloatC_nonneg _ _ h2, by norm_num, by norm_num⟩

/-- C2: the classifier is total and deterministic — every input string
(including the empty string) is assigned exactly one member of the fixed
kind set, a string matched by no rule is classified UNKNOWN, and the
result is always that of the earliest matching rule in the fixed
priority list (`List.find?` over `classifierRules`). -/
theorem classifier_totality_and_priority (m : List Char) :
    identify_message_type m ∈ messageKinds ∧
    identify_message_type m =
      ((classifierRules.find? (fun rb => rb.1 m)).map Prod.snd).getD (lc (r"UNKNOWN")) ∧
    ((∀ rb ∈ classifierRules, rb.1 m = false) →
      identify_message_type m = lc (r"UNKNOWN")) := by
  have heq : identify_message_type m =
      ((classifierRules.find? (fun rb => rb.1 m)).map Prod.snd).getD (lc (r"UNKNOWN")) :=
    (identify_eq_firstRuleMatch m).trans (firstRuleMatch_eq_find _ m)
  refine ⟨?_, heq, ?_⟩
  · rw [heq]
    cases hf : classifierRules.find? (fun rb => rb.1 m) with
    | none => decide
    | some rb => exact classifierRules_kind_mem rb (List.mem_of_find?_eq_some hf)
  · intro hnone
    rw [heq]
    have hn : classifierRules.find? (fun rb => rb.1 m) = none := by
      rw [List.find?_eq_none]
      intro rb hrb
      simp [hnone rb hrb]
    simp [hn]

/-- C2 witness: a string matching no rule is classified UNKNOWN. -/
theorem classifier_totality_and_priority_witness :
    identify_message_type (lc (r"hello world")) = lc (r"UNKNOWN") :=
  (classifier_totality_and_priority (lc (r"hello world"))).2.2 (by decide)

/-- C3 (amended): for every message, kind string and hint timestamp, a
successful extraction yields a non-negative amount (zero is possible:
non-positive amounts are not rejected) and a confidence in [0,1]. -/
theorem extraction_amount_confidence_bounds (m k : List Char) (ts : Option (List Char))
    (t : ParsedTransaction) (h : extract_transaction_data m k ts = some t) :
    0 ≤ t.amount ∧ 0 ≤ t.confidence ∧ t.confidence ≤ 1 := by
  unfold extract_transaction_data at h
  by_cases c1 : (k == lc (r"INCOMING_MONEY")) = true
  · rw [if_pos c1] at h
    exact parse_incoming_money_bounds _ _ _ h
  · rw [if_neg c1] at h
    by_cases c2 : (k == lc (r"PAYMENT_MOMO_CODE")) = true
    · rw [if_pos c2] at h
      exact parse_payment_momo_code_bounds _ _ _ h
    · rw [if_neg c2] at h
      by_cases c3 : (k == lc (r"DEPOSIT_AGENT")) = true
      · rw [if_pos c3] at h
        exact parse_deposit_agent_bounds _ _ _ h
      · rw [if_neg c3] at h
        by_cases c4 : (k == lc (r"DEPOSIT_OTHER")) = true
        · rw [if_pos c4] at h
          exact parse_deposit_other_bounds _ _ _ h
        · rw [if_neg c4] at h
          by_cases c5 : (k == lc (r"TRANSFER_MOBILE")) = true
          · rw [if_pos c5] at h
            exact parse_transfer_mobile_bounds _ _ _ h
          · rw [if_neg c5] at h
            by_cases c6 : (k == lc (r"AIRTIME_PURCHASE")) = true
            · rw [if_pos c6] at h
              exact parse_airtime_purchase_bounds _ _ _ h
            · rw [if_neg c6] at h
              by_cases c7 : (k == lc (r"DATA_BUNDLE_PURCHASE")) = true
              · rw [if_pos c7] at h
                exact parse_data_bundle_purchase_bounds _ _ _ h
              · rw [if_neg c7] at h
                by_cases c8 : (k == lc (r"BUSINESS_PAYMENT")) = true
                · rw [if_pos c8] at h
                  exact parse_business_payment_bounds _ _ _ h
                · rw [if_neg c8] at h
                  by_cases c9 : (k == lc (r"CASH_WITHDRAWAL")) = true
                  · rw [if_pos c9] at h
                    exact parse_cash_withdrawal_bounds _ _ _ h
                  · rw [if_neg c9] at h
                    by_cases c10 : (k == lc (r"TRANSFER_IMBANK")) = true
                    · rw [if_pos c10] at h
                      exact parse_transfer_imbank_bounds _ _ _ h
                    · rw [if_neg c10] at h
                      by_cases c11 : (k == lc (r"PAYMENT_ALTERNATIVE")) = true
                      · rw [if_pos c11] at h
                        exact parse_payment_alternative_bounds _ _ _ h
                      · rw [if_neg c11] at h
                        by_cases c12 : (k == lc (r"FAILED_TRANSACTION")) = true
                        · rw [if_pos c12] at h
                          exact parse_failed_transaction_bounds _ _ _ h
                        · rw [if_neg c12] at h
                          by_cases c13 : (k == lc (r"REVERSAL")) = true
                          · rw [if_pos c13] at h
                            exact parse_reversal_bounds _ _ _ h
                          · rw [if_neg c13] at h
                            by_cases c14 : (k == lc (r"DEPOSIT_ALTERNATIVE")) = true
                            · rw [if_pos c14] at h
                              exact parse_deposit_alternative_bounds _ _ _ h
                            · rw [if_neg c14] at h
                              exact absurd h (by simp)

/-- C3 counterexample: the body "You have received 0 RWF from John Doe
(+256700123456)." is classified IncomingMoney and extraction SUCCEEDS
with amount 0 — the amount of a successful extraction is not strictly
positive, and non-positive amounts are not rejected. -/
theorem extraction_strict_positivity_counterexample :
    identify_message_type
        (lc (r"You have received 0 RWF from John Doe (+256700123456).")) =
      lc (r"INCOMING_MONEY") ∧
    (extract_transaction_data
        (lc (r"You have received 0 RWF from John Doe (+256700123456)."))
        (lc (r"INCOMING_MONEY")) none).map (fun t => t.amount) = some 0 := by
  constructor
  · decide
  · decide

/-- C3 witness: a concrete successful extraction, to which the amended
bound theorem applies. -/
theorem extraction_amount_confidence_bounds_witness :
    extract_transaction_data (lc (r"You have received 100 RWF"))
        (lc (r"INCOMING_MONEY")) none =
      some { amount := ((100 : ℕ) : ℚ),
             transaction_type := lc (r"RECEIVE"),
             category := lc (r"TRANSFER_INCOMING"),
             direction := lc (r"credit"),
             original_message := lc (r"You have received 100 RWF"),
             confidence := 19/20 } ∧
    (0 ≤ (({ amount := ((100 : ℕ) : ℚ),
             transaction_type := lc (r"RECEIVE"),
             category := lc (r"TRANSFER_INCOMING"),
             direction := lc (r"credit"),
             original_message := lc (r"You have received 100 RWF"),
             confidence := 19/20 } : ParsedTransaction)).amount) := by
  constructor
  · rfl
  · exact (extraction_amount_confidence_bounds (lc (r"You have received 100 RWF"))
      (lc (r"INCOMING_MONEY")) none _ (by rfl)).1

theorem filesLookup_upsert_self (db : FilesDB) (name path : List Char) (rec : FileRecord) :
    filesLookup (filesUpsert db (name, path) rec) name path = some rec := by
  induction db with
  | nil => simp [filesUpsert, filesLookup, List.find?]
  | cons e tl ih =>
    by_cases he : (e.1 == (name, path)) = true
    · simp [filesUpsert, filesLookup, List.find?, he]
    · simp only [filesUpsert, he, if_neg, Bool.not_eq_true, if_false]
      unfold filesLookup at ih ⊢
      simp only [List.find?, he]
      exact ih

/-- C1 -/
theorem idempotent_reingestion_skipped (parseXml : List Nat → Option (List SmsRec))
    (hashFn : List Nat → List Char) (isoOfMillis : ℤ → List Char)
    (fs : List Char → Option (List Nat)) (st : PipeState) (fname fpath : List Char)
    (bytes : List Nat) (rec : FileRecord)
    (hfs : fs fpath = some bytes)
    (hrec : filesLookup st.files_db fname fpath = some rec)
    (hsize : rec.file_size = bytes.length)
    (hhash : rec.file_hash = hashFn bytes) :
    run_enhanced_etl_pipeline parseXml hashFn isoOfMillis fs st fname fpath =
      (st, { status := lc (r"skipped"), msgs_read := 0 }) := by
  have hsp : should_process_file st.files_db fs hashFn fname fpath = false := by
    unfold should_process_file
    rw [hfs]
    unfold is_file_processed is_file_changed
    rw [hrec]
    simp [hsize, hhash]
  unfold run_enhanced_etl_pipeline
  rw [hsp]
  simp

/-- C1 witness -/
theorem idempotent_reingestion_skipped_witness :
    run_enhanced_etl_pipeline (fun _ => some []) (fun _ => lc (r"h3")) (fun _ => [])
      (fun p => if p == lc (r"/data/f.xml") then some [1, 2, 3] else none)
      { files_db := [((lc (r"f.xml"), lc (r"/data/f.xml")),
          { file_size := 3, file_hash := lc (r"h3"), records_processed := 5,
            processing_status := lc (r"SUCCESS"), error_message := none })],
        db := {} }
      (lc (r"f.xml")) (lc (r"/data/f.xml")) =
      ({ files_db := [((lc (r"f.xml"), lc (r"/data/f.xml")),
          { file_size := 3, file_hash := lc (r"h3"), records_processed := 5,
            processing_status := lc (r"SUCCESS"), error_message := none })],
         db := {} },
       { status := lc (r"skipped"), msgs_read := 0 }) :=
  idempotent_reingestion_skipped _ _ _ _ _ _ _ [1, 2, 3]
    { file_size := 3, file_hash := lc (r"h3"), records_processed := 5,
      processing_status := lc (r"SUCCESS"), error_message := none }
    (by decide) (by decide) (by decide) (by decide)

/-- C5 counterexample: a file whose `processed_files` record has status
FAILED and whose bytes are unchanged (same size and hash) is NOT
eligible for reprocessing — `should_process_file` returns false, because
`is_file_processed` ignores the stored status. -/
theorem failed_file_retry_counterexample :
    (filesLookup
        [((lc (r"f.xml"), lc (r"/data/f.xml")),
          { file_size := 3, file_hash := lc (r"h3"), records_processed := 0,
            processing_status := lc (r"FAILED"),
            error_message := some (lc (r"boom")) })]
        (lc (r"f.xml")) (lc (r"/data/f.xml"))).map
      (fun rec => rec.processing_status) = some (lc (r"FAILED")) ∧
    should_process_file
      [((lc (r"f.xml"), lc (r"/data/f.xml")),
        { file_size := 3, file_hash := lc (r"h3"), records_processed := 0,
          processing_status := lc (r"FAILED"),
          error_message := some (lc (r"boom")) })]
      (fun p => if p == lc (r"/data/f.xml") then some [1, 2, 3] else none)
      (fun _ => lc (r"h3"))
      (lc (r"f.xml")) (lc (r"/data/f.xml")) = false := by
  constructor
  · decide
  · decide

/-- C5 (amended): (a) whenever the processing branch of a run raises —
which in this code includes every run that parses at least one
transaction, since `convert_to_database_format` reads a missing
attribute before any storage call — the run returns status "error" and
the file's record is upserted with status FAILED and 0 records; but (b)
a file whose record matches the file's current (size, hash) is NOT
eligible for reprocessing regardless of the record's status (so a
FAILED record with unchanged bytes is not retried). -/
theorem failed_marking_and_no_retry :
    (∀ (parseXml : List Nat → Option (List SmsRec)) (hashFn : List Nat → List Char)
        (iso : ℤ → List Char) (fs : List Char → Option (List Nat)) (st : PipeState)
        (fname fpath : List Char) (bytes : List Nat) (smss : List SmsRec),
      should_process_file st.files_db fs hashFn fname fpath = true →
      fs fpath = some bytes →
      parseXml bytes = some smss →
      (parse_xml_enhanced iso smss).2 ≠ [] →
      (run_enhanced_etl_pipeline parseXml hashFn iso fs st fname fpath).2.status =
        lc (r"error") ∧
      filesLookup (run_enhanced_etl_pipeline parseXml hashFn iso fs st fname
          fpath).1.files_db fname fpath =
        some { file_size := bytes.length, file_hash := hashFn bytes,
               records_processed := 0, processing_status := lc (r"FAILED"),
               error_message := some attr_error_message }) ∧
    (∀ (db : FilesDB) (fs : List Char → Option (List Nat))
        (hashFn : List Nat → List Char) (fname fpath : List Char) (bytes : List Nat)
        (rec : FileRecord),
      fs fpath = some bytes →
      filesLookup db fname fpath = some rec →
      rec.file_size = bytes.length →
      rec.file_hash = hashFn bytes →
      should_process_file db fs hashFn fname fpath = false) := by
  constructor
  · intro parseXml hashFn iso fs st fname fpath bytes smss hsp hfs hpx hne
    obtain ⟨x, xs, hcons⟩ := List.exists_cons_of_ne_nil hne
    have hrun : run_enhanced_etl_pipeline parseXml hashFn iso fs st fname fpath =
        ({ st with
            files_db :=
              mark_file_processed st.files_db fs hashFn fname fpath 0 (lc (r"FAILED"))
                (some attr_error_message) },
          { status := lc (r"error"), msgs_read := smss.length }) := by
      unfold run_enhanced_etl_pipeline
      simp only [hsp, Bool.not_true, Bool.false_eq_true, if_false, hfs, hpx, hcons,
        List.isEmpty_cons, convert_to_database_format]
    rw [hrun]
    refine ⟨rfl, ?_⟩
    unfold mark_file_processed
    rw [hfs]
    exact filesLookup_upsert_self _ _ _ _
  · intro db fs hashFn fname fpath bytes rec hfs hrec hsize hhash
    unfold should_process_file
    rw [hfs]
    unfold is_file_processed is_file_changed
    rw [hrec]
    simp [hsize, hhash]

/-- C5 witness: a concrete failing run is marked FAILED with an error
status, and a concrete FAILED-but-unchanged file is not retried. -/
theorem failed_marking_and_no_retry_witness :
    (run_enhanced_etl_pipeline
        (fun _ => some [{ body := lc (r"You have received 100 RWF"),
                          address := lc (r"M-Money"), date_attr := [],
                          readable_date := [] }])
        (fun _ => lc (r"h")) (fun _ => [])
        (fun p => if p == lc (r"/d/f.xml") then some [7] else none)
        {} (lc (r"f.xml")) (lc (r"/d/f.xml"))).2.status = lc (r"error") ∧
    should_process_file
      [((lc (r"f.xml"), lc (r"/data/f.xml")),
        { file_size := 3, file_hash := lc (r"h3"), records_processed := 0,
          processing_status := lc (r"FAILED"),
          error_message := some (lc (r"boom")) })]
      (fun p => if p == lc (r"/data/f.xml") then some [1, 2, 3] else none)
      (fun _ => lc (r"h3"))
      (lc (r"f.xml")) (lc (r"/data/f.xml")) = false :=
  ⟨(failed_marking_and_no_retry.1
      (fun _ => some [{ body := lc (r"You have received 100 RWF"),
                        address := lc (r"M-Money"), date_attr := [],
                        readable_date := [] }])
      (fun _ => lc (r"h")) (fun _ => [])
      (fun p => if p == lc (r"/d/f.xml") then some [7] else none)
      {} (lc (r"f.xml")) (lc (r"/d/f.xml")) [7]
      [{ body := lc (r"You have received 100 RWF"), address := lc (r"M-Money"),
         date_attr := [], readable_date := [] }]
      (by decide) (by decide) rfl (by decide)).1,
   failed_marking_and_no_retry.2
      [((lc (r"f.xml"), lc (r"/data/f.xml")),
        { file_size := 3, file_hash := lc (r"h3"), records_processed := 0,
          processing_status := lc (r"FAILED"),
          error_message := some (lc (r"boom")) })]
      (fun p => if p == lc (r"/data/f.xml") then some [1, 2, 3] else none)
      (fun _ => lc (r"h3"))
      (lc (r"f.xml")) (lc (r"/data/f.xml")) [1, 2, 3]
      { file_size := 3, file_hash := lc (r"h3"), records_processed := 0,
        processing_status := lc (r"FAILED"), error_message := some (lc (r"boom")) }
      (by decide) (by decide) (by decide) (by decide)⟩

theorem get_or_create_user_transactions (db : DbTables) (p : Option (List Char)) :
    (get_or_create_user db p).1.transactions = db.transactions := by
  unfold get_or_create_user
  cases p with
  | none => rfl
  | some s =>
    by_cases hs : s.isEmpty = true
    · simp [hs]
    · simp only [hs, Bool.false_eq_true, if_false]
      cases hf : db.users.find? (fun u => u.2 == s) <;> simp [hf]

theorem get_or_create_category_transactions (db : DbTables) (c : Option (List Char)) :
    (get_or_create_category db c).1.transactions = db.transactions := by
  unfold get_or_create_category
  cases c with
  | none => rfl
  | some s =>
    by_cases hs : s.isEmpty = true
    · simp [hs]
    · simp only [hs, Bool.false_eq_true, if_false]
      cases hf : db.categories.find? (fun e => e.2 == s) <;> simp [hf]

theorem get_or_create_tag_transactions (db : DbTables) (n : List Char) :
    (get_or_create_tag db n).1.transactions = db.transactions := by
  unfold get_or_create_tag
  cases hf : db.tags.find? (fun e => e.2 == n) <;> simp [hf]

theorem add_transaction_tags_transactions (names : List (List Char)) (db : DbTables)
    (i : Nat) (a : Option Nat) :
    (add_transaction_tags db i names a).transactions = db.transactions := by
  induction names generalizing db with
  | nil => rfl
  | cons n tl ih =>
    unfold add_transaction_tags at ih ⊢
    rw [List.foldl_cons, ih]
    have hg := get_or_create_tag_transactions db n
    dsimp only
    split
    · exact hg
    · simpa using hg

theorem countExt_append (l : List TxRow) (row : TxRow) (x : List Char) :
    countExt (l ++ [row]) x =
      countExt l x + (if row.external_transaction_id == some x then 1 else 0) := by
  unfold countExt
  rw [List.filter_append]
  simp only [List.length_append]
  congr 1
  by_cases hr : (row.external_transaction_id == some x) = true <;> simp [hr, List.filter]

theorem countExt_zero_find (l : List TxRow) (x : List Char)
    (h : countExt l x = 0) :
    l.find? (fun row0 => row0.external_transaction_id == some x) = none := by
  rw [List.find?_eq_none]
  intro row hrow hbeq
  have hmem : row ∈ l.filter (fun row0 => row0.external_transaction_id == some x) :=
    List.mem_filter.mpr ⟨hrow, hbeq⟩
  unfold countExt at h
  rw [List.length_eq_zero] at h
  rw [h] at hmem
  exact absurd hmem (List.not_mem_nil _)

theorem countExt_pos_find (l : List TxRow) (x : List Char)
    (h : countExt l x ≠ 0) :
    ∃ row, l.find? (fun row0 => row0.external_transaction_id == some x) = some row := by
  cases hf : l.find? (fun row0 => row0.external_transaction_id == some x) with
  | some row => exact ⟨row, rfl⟩
  | none =>
    exfalso
    apply h
    unfold countExt
    rw [List.length_eq_zero, List.filter_eq_nil_iff]
    intro row hrow
    rw [List.find?_eq_none] at hf
    exact fun hb => hf row hrow hb

theorem get_or_create_user_next_tx (db : DbTables) (p : Option (List Char)) :
    (get_or_create_user db p).1.next_transaction_id = db.next_transaction_id := by
  unfold get_or_create_user
  cases p with
  | none => rfl
  | some s =>
    by_cases hs : s.isEmpty = true
    · simp [hs]
    · simp only [hs, Bool.false_eq_true, if_false]
      cases hf : db.users.find? (fun u => u.2 == s) <;> simp [hf]

theorem get_or_create_category_next_tx (db : DbTables) (c : Option (List Char)) :
    (get_or_create_category db c).1.next_transaction_id = db.next_transaction_id := by
  unfold get_or_create_category
  cases c with
  | none => rfl
  | some s =>
    by_cases hs : s.isEmpty = true
    · simp [hs]
    · simp only [hs, Bool.false_eq_true, if_false]
      cases hf : db.categories.find? (fun e => e.2 == s) <;> simp [hf]

theorem insert_transaction_dup (db : DbTables) (t : DbTx) (s r c : Option Nat)
    (x : List Char) (row : TxRow)
    (ht : t.external_transaction_id = some x) (hx : x ≠ [])
    (hf : db.transactions.find?
      (fun row0 => row0.external_transaction_id == some x) = some row) :
    insert_transaction db t s r c = (db, some row.transaction_id) := by
  unfold insert_transaction
  rw [ht]
  have hxe : x.isEmpty = false := by simpa [List.isEmpty_iff] using hx
  simp only [hxe, Bool.false_eq_true, if_false, hf]

theorem insert_transaction_new (db : DbTables) (t : DbTx) (s r c : Option Nat)
    (x : List Char)
    (ht : t.external_transaction_id = some x) (hx : x ≠ [])
    (hnz : db.next_transaction_id ≠ 0)
    (hf : db.transactions.find?
      (fun row0 => row0.external_transaction_id == some x) = none) :
    ∃ row, (insert_transaction db t s r c).1.transactions = db.transactions ++ [row] ∧
      row.external_transaction_id = some x ∧
      (insert_transaction db t s r c).2 = some db.next_transaction_id := by
  unfold insert_transaction
  rw [ht]
  have hxe : x.isEmpty = false := by simpa [List.isEmpty_iff] using hx
  have hnzb : (db.next_transaction_id == 0) = false := by simpa using hnz
  simp only [hxe, Bool.false_eq_true, if_false, hf, hnzb]
  exact ⟨_, rfl, rfl, trivial⟩

theorem process_transaction_new (db : DbTables) (t : DbTx) (x : List Char)
    (ht : t.external_transaction_id = some x) (hx : x ≠ [])
    (hnz : db.next_transaction_id ≠ 0)
    (h0 : countExt db.transactions x = 0) :
    ∃ row, (process_transaction db t).1.transactions = db.transactions ++ [row] ∧
      row.external_transaction_id = some x := by
  unfold process_transaction
  dsimp only
  have e1 := get_or_create_user_transactions db t.phone
  have e2 := get_or_create_user_transactions (get_or_create_user db t.phone).1
    t.recipient_phone
  have e3 := get_or_create_category_transactions
    ((get_or_create_user (get_or_create_user db t.phone).1 t.recipient_phone).1) t.category
  have n1 := get_or_create_user_next_tx db t.phone
  have n2 := get_or_create_user_next_tx (get_or_create_user db t.phone).1 t.recipient_phone
  have n3 := get_or_create_category_next_tx
    ((get_or_create_user (get_or_create_user db t.phone).1 t.recipient_phone).1) t.category
  have htr : ((get_or_create_category
      ((get_or_create_user (get_or_create_user db t.phone).1 t.recipient_phone).1)
      t.category).1).transactions = db.transactions := by rw [e3, e2, e1]
  have hnz3 : ((get_or_create_category
      ((get_or_create_user (get_or_create_user db t.phone).1 t.recipient_phone).1)
      t.category).1).next_transaction_id ≠ 0 := by rw [n3, n2, n1]; exact hnz
  have hf3 : ((get_or_create_category
      ((get_or_create_user (get_or_create_user db t.phone).1 t.recipient_phone).1)
      t.category).1).transactions.find?
        (fun row0 => row0.external_transaction_id == some x) = none := by
    rw [htr]
    exact countExt_zero_find _ _ h0
  obtain ⟨row, hta, hrx, hid⟩ := insert_transaction_new
    ((get_or_create_category
      ((get_or_create_user (get_or_create_user db t.phone).1 t.recipient_phone).1)
      t.category).1) t
    ((get_or_create_user db t.phone).2)
    ((get_or_create_user (get_or_create_user db t.phone).1 t.recipient_phone).2)
    ((get_or_create_category
      ((get_or_create_user (get_or_create_user db t.phone).1 t.recipient_phone).1)
      t.category).2) x ht hx hnz3 hf3
  refine ⟨row, ?_, hrx⟩
  rw [hid]
  dsimp only
  split
  · rw [hta, htr]
  · rw [add_transaction_tags_transactions, hta, htr]

theorem process_transaction_dup (db : DbTables) (t : DbTx) (x : List Char)
    (ht : t.external_transaction_id = some x) (hx : x ≠ [])
    (hpos : countExt db.transactions x ≠ 0) :
    (process_transaction db t).1.transactions = db.transactions := by
  unfold process_transaction
  dsimp only
  have e1 := get_or_create_user_transactions db t.phone
  have e2 := get_or_create_user_transactions (get_or_create_user db t.phone).1
    t.recipient_phone
  have e3 := get_or_create_category_transactions
    ((get_or_create_user (get_or_create_user db t.phone).1 t.recipient_phone).1) t.category
  have htr : ((get_or_create_category
      ((get_or_create_user (get_or_create_user db t.phone).1 t.recipient_phone).1)
      t.category).1).transactions = db.transactions := by rw [e3, e2, e1]
  obtain ⟨row, hfrow⟩ := countExt_pos_find _ _ (by rw [htr]; exact hpos :
    countExt ((get_or_create_category
      ((get_or_create_user (get_or_create_user db t.phone).1 t.recipient_phone).1)
      t.category).1).transactions x ≠ 0)
  have hins := insert_transaction_dup
    ((get_or_create_category
      ((get_or_create_user (get_or_create_user db t.phone).1 t.recipient_phone).1)
      t.category).1) t
    ((get_or_create_user db t.phone).2)
    ((get_or_create_user (get_or_create_user db t.phone).1 t.recipient_phone).2)
    ((get_or_create_category
      ((get_or_create_user (get_or_create_user db t.phone).1 t.recipient_phone).1)
      t.category).2) x row ht hx hfrow
  rw [hins]
  dsimp only
  split
  · exact htr
  · rw [add_transaction_tags_transactions]; exact htr

theorem load_transactions_two (db : DbTables) (t1 t2 : DbTx) :
    (load_transactions db [t1, t2]).1.transactions =
      (process_transaction (process_transaction db t1).1 t2).1.transactions := by
  unfold load_transactions
  dsimp only [List.foldl_cons, List.foldl_nil]
  cases h1 : (process_transaction db t1).2 <;> simp only [h1] <;>
    cases h2 : (process_transaction (process_transaction db t1).1 t2).2 <;>
      simp [h2]

/-- C4: duplicate-by-identifier. -/
theorem duplicate_by_identifier (db : DbTables) (t1 t2 : DbTx) (x : List Char)
    (hx : x ≠ [])
    (h1 : t1.external_transaction_id = some x)
    (h2 : t2.external_transaction_id = some x)
    (hnz : db.next_transaction_id ≠ 0)
    (h0 : countExt db.transactions x = 0) :
    countExt (load_transactions db [t1, t2]).1.transactions x = 1 ∧
    (∀ (db2 : DbTables) (t : DbTx) (s r c : Option Nat) (row : TxRow),
      t.external_transaction_id = some x →
      db2.transactions.find?
        (fun row0 => row0.external_transaction_id == some x) = some row →
      insert_transaction db2 t s r c = (db2, some row.transaction_id)) := by
  constructor
  · rw [load_transactions_two]
    obtain ⟨row1, hta1, hrx1⟩ := process_transaction_new db t1 x h1 hx hnz h0
    have hc1 : countExt (process_transaction db t1).1.transactions x = 1 := by
      rw [hta1, countExt_append, h0]
      simp [hrx1]
    have hdup := process_transaction_dup (process_transaction db t1).1 t2 x h2 hx
      (by rw [hc1]; exact one_ne_zero)
    rw [hdup, hc1]
  · intro db2 t s r c row ht hf
    exact insert_transaction_dup db2 t s r c x row ht hx hf

/-- C4 witness: two concrete transactions with different texts but the
same external id produce exactly one stored row. -/
theorem duplicate_by_identifier_witness :
    countExt (load_transactions {}
      [{ amount := 10, external_transaction_id := some (lc (r"X1")),
         original_data := lc (r"msg one") },
       { amount := 20, external_transaction_id := some (lc (r"X1")),
         original_data := lc (r"completely different text") }]).1.transactions
      (lc (r"X1")) = 1 :=
  (duplicate_by_identifier {}
    { amount := 10, external_transaction_id := some (lc (r"X1")),
      original_data := lc (r"msg one") }
    { amount := 20, external_transaction_id := some (lc (r"X1")),
      original_data := lc (r"completely different text") }
    (lc (r"X1")) (by decide) (by decide) (by decide) (by decide) (by decide)).1

/-- C6 amended -/
theorem required_fields_extraction :
    (∀ (msg : List Char) (ts : Option (List Char)) (amt : List Char) (q : ℚ)
        (rc : List Char × List Char) (nb : Option ℚ) (fee : ℚ),
      search1 re_payment_amount (pyUpper msg) = some amt →
      pyFloatC amt = some q →
      req2 (search2 re_momo_recipient (pyUpper msg)) = some rc →
      optNumC (search1 re_balance_sp (pyUpper msg)) = some nb →
      numD0 (search1 re_fee_was (pyUpper msg)) = some fee →
      ∃ t, parse_payment_momo_code msg ts = some t ∧
        t.amount = q ∧
        (search1 re_txid_sp (pyUpper msg) = none → t.transaction_id = none) ∧
        (search1 re_fee_was (pyUpper msg) = none → t.fee = 0) ∧
        (search1 re_balance_sp (pyUpper msg) = none → t.new_balance = none) ∧
        (search1 re_at_date_up (pyUpper msg) = none → t.date = ts)) ∧
    (∀ (msg : List Char) (ts : Option (List Char)) (amt : List Char) (q : ℚ)
        (rc : List Char × List Char) (fee : ℚ) (nb : Option ℚ),
      search1 re_transfer_amount (pyUpper msg) = some amt →
      pyFloatC amt = some q →
      req2 (search2 re_transfer_recipient (pyUpper msg)) = some rc →
      numD0 (search1 re_fee_was_colon (pyUpper msg)) = some fee →
      optNumC (search1 re_new_balance (pyUpper msg)) = some nb →
      ∃ t, parse_transfer_mobile msg ts = some t ∧
        t.amount = q ∧
        (search1 re_from_momo_id (pyUpper msg) = none → t.sender_momo_id = none) ∧
        (search1 re_fee_was_colon (pyUpper msg) = none → t.fee = 0) ∧
        (search1 re_new_balance (pyUpper msg) = none → t.new_balance = none) ∧
        (search1 re_at_date_up (pyUpper msg) = none → t.date = ts)) := by
  constructor
  · intro msg ts amt q rc nb fee hamt hq hrc hnb hfee
    refine ⟨{ amount := q,
              transaction_type := lc (r"PAYMENT"),
              category := lc (r"PAYMENT_PERSONAL"),
              direction := lc (r"debit"),
              recipient_name := some (pyStrip rc.1),
              momo_code := some rc.2,
              fee := fee,
              new_balance := nb,
              transaction_id := search1 re_txid_sp (pyUpper msg),
              date := orD (search1 re_at_date_up (pyUpper msg)) ts,
              original_message := msg,
              confidence := 19/20 }, ?_, rfl, ?_, ?_, ?_, ?_⟩
    · unfold parse_payment_momo_code
      dsimp only
      rw [hamt, Option.some_bind, hq, Option.some_bind, hrc, Option.some_bind,
        hnb, Option.some_bind, hfee, Option.some_bind]
    · intro hnone
      exact hnone
    · intro hnone
      rw [hnone] at hfee
      exact (Option.some.inj hfee).symm
    · intro hnone
      rw [hnone] at hnb
      exact (Option.some.inj hnb).symm
    · intro hnone
      show orD (search1 re_at_date_up (pyUpper msg)) ts = ts
      rw [hnone]
      rfl
  · intro msg ts amt q rc fee nb hamt hq hrc hfee hnb
    refine ⟨{ amount := q,
              transaction_type := lc (r"TRANSFER"),
              category := lc (r"TRANSFER_OUTGOING"),
              direction := lc (r"debit"),
              recipient_name := some (pyStrip rc.1),
              recipient_phone := some rc.2,
              sender_momo_id := search1 re_from_momo_id (pyUpper msg),
              fee := fee,
              new_balance := nb,
              date := orD (search1 re_at_date_up (pyUpper msg)) ts,
              original_message := msg,
              confidence := 19/20 }, ?_, rfl, ?_, ?_, ?_, ?_⟩
    · unfold parse_transfer_mobile
      dsimp only
      rw [hamt, Option.some_bind, hq, Option.some_bind, hrc, Option.some_bind,
        hfee, Option.some_bind, hnb, Option.some_bind]
    · intro hnone
      exact hnone
    · intro hnone
      rw [hnone] at hfee
      exact (Option.some.inj hfee).symm
    · intro hnone
      rw [hnone] at hnb
      exact (Option.some.inj hnb).symm
    · intro hnone
      show orD (search1 re_at_date_up (pyUpper msg)) ts = ts
      rw [hnone]
      rfl

/-- C6 counterexample: a body of recognized kind PAYMENT_MOMO_CODE whose
amount is parseable ("100") but whose extraction nevertheless fails,
because the recipient pattern `TO ([^(]+) (\d{5})` is also mandatory. -/
theorem amount_only_failure_counterexample :
    identify_message_type
        (lc (r"TxId: 99. Your payment of 100 RWF has been completed.")) =
      lc (r"PAYMENT_MOMO_CODE") ∧
    search1 re_payment_amount
        (pyUpper (lc (r"TxId: 99. Your payment of 100 RWF has been completed."))) =
      some (lc (r"100")) ∧
    parse_payment_momo_code
        (lc (r"TxId: 99. Your payment of 100 RWF has been completed.")) none = none := by
  refine ⟨by decide, by decide, by decide⟩

/-- C6 witness: concrete bodies with amount and recipient but no other
fields extract successfully with all optional fields at their defaults. -/
theorem required_fields_extraction_witness :
    (parse_payment_momo_code
        (lc (r"Your payment of 100 RWF to Alice 12345 has been completed.")) none).map
      (fun t => (t.transaction_id, t.fee, t.new_balance, t.date)) =
      some (none, 0, none, none) ∧
    (parse_transfer_mobile
        (lc (r"*165*S*200 RWF transferred to Bob Jones (250788111222)")) none).map
      (fun t => (t.sender_momo_id, t.fee, t.new_balance, t.date)) =
      some (none, 0, none, none) := by
  constructor
  · obtain ⟨t, hp, ham, h1, h2, h3, h4⟩ := required_fields_extraction.1
      (lc (r"Your payment of 100 RWF to Alice 12345 has been completed.")) none
      (lc (r"100")) ((100 : ℕ) : ℚ) (lc (r"ALICE"), lc (r"12345")) none 0
      (by decide) (by decide) (by decide) (by decide) (by decide)
    rw [hp]
    simp [h1 (by decide), h2 (by decide), h3 (by decide), h4 (by decide)]
  · obtain ⟨t, hp, ham, h1, h2, h3, h4⟩ := required_fields_extraction.2
      (lc (r"*165*S*200 RWF transferred to Bob Jones (250788111222)")) none
      (lc (r"200")) ((200 : ℕ) : ℚ) (lc (r"BOB JONES"), lc (r"250788111222")) 0 none
      (by decide) (by decide) (by decide) (by decide) (by decide)
    rw [hp]
    simp [h1 (by decide), h2 (by decide), h3 (by decide), h4 (by decide)]

/-- C7 counterexample: for the scenario body the extraction succeeds but
its transaction_id is None — the regex `FINANCIAL TRANSACTION ID: (\d+)`
accepts only digits, so "TXN123456" is not captured (the claim asserts
transaction_id "TXN123456"). -/
theorem incoming_scenario_counterexample :
    identify_message_type (lc (r"You have received 50000 RWF from John Doe (+256700123456)... Financial Transaction Id: TXN123456.")) =
      lc (r"INCOMING_MONEY") ∧
    (parse_incoming_money (lc (r"You have received 50000 RWF from John Doe (+256700123456)... Financial Transaction Id: TXN123456.")) none).map
      (fun t => t.transaction_id) = some none := by
  refine ⟨by decide, by decide⟩

/-- C7 (amended): the scenario body classifies as IncomingMoney and
extracts amount 50000, direction credit, sender phone "+256700123456",
category "TRANSFER_INCOMING" — but transaction_id None (not
"TXN123456"). -/
theorem incoming_scenario_fields :
    identify_message_type (lc (r"You have received 50000 RWF from John Doe (+256700123456)... Financial Transaction Id: TXN123456.")) =
      lc (r"INCOMING_MONEY") ∧
    parse_incoming_money (lc (r"You have received 50000 RWF from John Doe (+256700123456)... Financial Transaction Id: TXN123456.")) none =
      some { amount := ((50000 : ℕ) : ℚ),
             transaction_type := lc (r"RECEIVE"),
             category := lc (r"TRANSFER_INCOMING"),
             direction := lc (r"credit"),
             sender_name := some (lc (r"JOHN DOE")),
             sender_phone := some (lc (r"+256700123456")),
             transaction_id := none,
             original_message := lc (r"You have received 50000 RWF from John Doe (+256700123456)... Financial Transaction Id: TXN123456."),
             confidence := 19/20 } := by
  refine ⟨by decide, by rfl⟩

/-- C8 counterexample: a *165*S* transfer body with the amount written
"25,000" classifies as TRANSFER_MOBILE but FAILS extraction (the amount
pattern `\*165\*S\*(\d+) RWF` accepts plain digits only) — it does not
parse to 25000; and a body with no currency keyword and no amount
("hello world") is classified UNKNOWN and dropped WITHOUT incrementing
the failure count. -/
theorem comma_transfer_counterexample :
    identify_message_type (lc (r"*165*S*25,000 RWF transferred to Alex Doe (250700123457) from 36521838 at 2024-01-01 10:00:00. Fee was: 100 RWF. New balance: 75000 RWF.")) =
      lc (r"TRANSFER_MOBILE") ∧
    parse_transfer_mobile (lc (r"*165*S*25,000 RWF transferred to Alex Doe (250700123457) from 36521838 at 2024-01-01 10:00:00. Fee was: 100 RWF. New balance: 75000 RWF.")) none =
      none ∧
    parse_message {} (lc (r"hello world")) none = ({}, none) := by
  refine ⟨by decide, by decide, by decide⟩

/-- C8 (amended): (i) for kinds whose amount pattern is
`[\d,]+(?:\.\d{2})?` (e.g. IncomingMoney) a "25,000" amount parses to
the comma-stripped 25000 — the *165*S* transfer kind's digits-only
pattern instead fails on such a body; (ii) for every body of a
recognized kind whose extraction fails, `parse_message` returns no
transaction and increments the parser's error count by exactly one,
appending one error message. -/
theorem comma_amount_and_failure_accounting :
    (parse_incoming_money
        (lc (r"You have received 25,000 RWF from Bob (+250788123456).")) none).map
      (fun t => t.amount) = some ((25000 : ℕ) : ℚ) ∧
    (∀ (st : MTNParserState) (msg : List Char) (ts : Option (List Char)),
      identify_message_type msg ≠ lc (r"UNKNOWN") →
      extract_transaction_data msg (identify_message_type msg) ts = none →
      parse_message st msg ts =
        ({ st with
            error_count := st.error_count + 1,
            errors := st.errors ++ [failedParseMsg msg] }, none)) := by
  constructor
  · decide
  · intro st msg ts hne hext
    unfold parse_message
    have hb : (identify_message_type msg == lc (r"UNKNOWN")) = false := by
      simpa using hne
    dsimp only
    simp only [hb, Bool.false_eq_true, if_false, hext]

/-- C8 witness: the failed *165*S* comma body increments the error count
by exactly one. -/
theorem comma_amount_and_failure_accounting_witness :
    parse_message {} (lc (r"*165*S*25,000 RWF transferred to Alex Doe (250700123457) from 36521838 at 2024-01-01 10:00:00. Fee was: 100 RWF. New balance: 75000 RWF.")) none =
      ({ parsed_count := 0, error_count := 1,
         errors := [failedParseMsg (lc (r"*165*S*25,000 RWF transferred to Alex Doe (250700123457) from 36521838 at 2024-01-01 10:00:00. Fee was: 100 RWF. New balance: 75000 RWF."))] },
        none) :=
  comma_amount_and_failure_accounting.2 {}
    (lc (r"*165*S*25,000 RWF transferred to Alex Doe (250700123457) from 36521838 at 2024-01-01 10:00:00. Fee was: 100 RWF. New balance: 75000 RWF.")) none
    (by decide) (by decide)

theorem dGet?_dSet_self (d : Dict) (k : List Char) (v : PyVal) :
    dGet? (dSet d k v) k = some v := by
  induction d with
  | nil => simp [dSet, dGet?, List.find?]
  | cons p tl ih =>
    by_cases hp : (p.1 == k) = true
    · simp [dSet, dGet?, List.find?, hp]
    · simp only [dSet, hp, Bool.false_eq_true, if_false]
      unfold dGet? at ih ⊢
      simp only [List.find?, hp]
      exact ih

theorem dGet?_dSet_ne (d : Dict) (k k' : List Char) (v : PyVal)
    (h : k' ≠ k) : dGet? (dSet d k v) k' = dGet? d k' := by
  have hk : (k == k') = false := beq_eq_false_iff_ne.mpr (Ne.symm h)
  induction d with
  | nil => simp [dSet, dGet?, List.find?, hk]
  | cons p tl ih =>
    by_cases hp : (p.1 == k) = true
    · have hpk : p.1 = k := eq_of_beq hp
      simp [dSet, dGet?, List.find?, hp, hk, hpk]
    · simp only [dSet, hp, Bool.false_eq_true, if_false]
      unfold dGet? at ih ⊢
      simp only [List.find?]
      by_cases hp' : (p.1 == k') = true
      · simp [hp']
      · simp only [hp', Bool.false_eq_true, if_false]
        exact ih

theorem foldl_best_mem (e : List Char × ℚ) (l : List (List Char × ℚ)) :
    l.foldl (fun b p => if p.2 > b.2 then p else b) e ∈ e :: l := by
  induction l generalizing e with
  | nil => simp
  | cons p tl ih =>
    rw [List.foldl_cons]
    rcases List.mem_cons.mp (ih (if p.2 > e.2 then p else e)) with h | h
    · rw [h]
      split
      · simp
      · simp
    · exact List.mem_cons.mpr (Or.inr (List.mem_cons.mpr (Or.inr h)))

theorem bestEntry_mem (l : List (List Char × ℚ)) (p : List Char × ℚ)
    (h : bestEntry l = some p) : p ∈ l := by
  cases l with
  | nil => simp [bestEntry] at h
  | cons e tl =>
    simp only [bestEntry, Option.some.injEq] at h
    subst h
    exact foldl_best_mem e tl

theorem scoreSet_pos (l : List (List Char × ℚ)) (k : List Char) (v : ℚ)
    (hl : ∀ p ∈ l, 0 < p.2) (hv : 0 < v) :
    ∀ p ∈ scoreSet l k v, 0 < p.2 := by
  induction l with
  | nil =>
    intro p hp
    simp [scoreSet] at hp
    rw [hp]
    exact hv
  | cons e tl ih =>
    intro p hp
    by_cases he : (e.1 == k) = true
    · simp only [scoreSet, he, if_true] at hp
      rcases List.mem_cons.mp hp with rfl | hp
      · exact hv
      · exact hl p (List.mem_cons.mpr (Or.inr hp))
    · simp only [scoreSet, he, Bool.false_eq_true, if_false] at hp
      rcases List.mem_cons.mp hp with rfl | hp
      · exact hl p (List.mem_cons.mpr (Or.inl rfl))
      · exact ih (fun q hq => hl q (List.mem_cons.mpr (Or.inr hq))) p hp

theorem scoreAdd_pos (l : List (List Char × ℚ)) (k : List Char) (v : ℚ)
    (hl : ∀ p ∈ l, 0 < p.2) (hv : 0 < v) :
    ∀ p ∈ scoreAdd l k v, 0 < p.2 := by
  induction l with
  | nil =>
    intro p hp
    simp [scoreAdd] at hp
    rw [hp]
    exact hv
  | cons e tl ih =>
    intro p hp
    by_cases he : (e.1 == k) = true
    · simp only [scoreAdd, he, if_true] at hp
      rcases List.mem_cons.mp hp with rfl | hp
      · exact add_pos (hl e (List.mem_cons.mpr (Or.inl rfl))) hv
      · exact hl p (List.mem_cons.mpr (Or.inr hp))
    · simp only [scoreAdd, he, Bool.false_eq_true, if_false] at hp
      rcases List.mem_cons.mp hp with rfl | hp
      · exact hl p (List.mem_cons.mpr (Or.inl rfl))
      · exact ih (fun q hq => hl q (List.mem_cons.mpr (Or.inr hq))) p hp

theorem keyword_scores_pos (text : List Char) :
    ∀ p ∈ keyword_scores text, 0 < p.2 := by
  have hgen : ∀ (cats : List (List Char × List (List Char)))
      (acc : List (List Char × ℚ)), (∀ p ∈ acc, 0 < p.2) →
      ∀ p ∈ cats.foldl
        (fun acc p =>
          let score := calculate_category_score text p.2
          if score > 0 then scoreSet acc p.1 score else acc) acc,
        0 < p.2 := by
    intro cats
    induction cats with
    | nil => intro acc hacc; exact hacc
    | cons c tl ih =>
      intro acc hacc
      rw [List.foldl_cons]
      apply ih
      dsimp only
      split
      · exact scoreSet_pos _ _ _ hacc (by assumption)
      · exact hacc
  exact hgen transactionCategories [] (by intro p hp; simp at hp)

theorem applyContribution_pos (ks : List (List Char × ℚ))
    (oc : Option (List Char)) (conf : ℚ) (hks : ∀ p ∈ ks, 0 < p.2) :
    ∀ p ∈ applyContribution ks oc conf, 0 < p.2 := by
  cases oc with
  | none => exact hks
  | some c =>
    simp only [applyContribution]
    split
    · next hcond =>
      exact scoreAdd_pos _ _ _ hks
        (of_decide_eq_true ((Bool.and_eq_true _ _).mp hcond).2)
    · exact hks

theorem categoryScores_pos (d1 : Dict) (s3 : List (List Char × ℚ))
    (h : categoryScores d1 = some s3) : ∀ p ∈ s3, 0 < p.2 := by
  unfold categoryScores at h
  dsimp only at h
  cases hA : categorize_by_amount (dGetD d1 (lc (r"amount")) (PyVal.vNum 0))
      (combined_text d1) with
  | none => rw [hA] at h; exact absurd h (by simp)
  | some acp =>
    rw [hA] at h
    cases hP : categorize_by_phone (dGetD d1 (lc (r"phone")) (PyVal.vStr []))
        (combined_text d1) with
    | none => rw [hP] at h; exact absurd h (by simp)
    | some pcp =>
      simp only [hP, Option.some.injEq] at h
      subst h
      exact applyContribution_pos _ _ _
        (applyContribution_pos _ _ _ (keyword_scores_pos (combined_text d1)))

theorem sms_conf_cases (d d1 : Dict) (oc : Option (List Char)) (sq : ℚ)
    (h : categorize_by_sms_patterns d = some (d1, oc, sq)) :
    sq = 19/20 ∨ (oc = none ∧ sq = 0) := by
  unfold categorize_by_sms_patterns at h
  split at h
  · simp only [Option.some.injEq, Prod.mk.injEq] at h
    exact Or.inr ⟨h.2.1.symm, h.2.2.symm⟩
  · split at h
    · simp only [Option.some.injEq, Prod.mk.injEq] at h
      exact Or.inr ⟨h.2.1.symm, h.2.2.symm⟩
    · exact absurd h (by simp)
  · split_ifs at h with h1 h2 h3 h4
    · simp only [Option.some.injEq, Prod.mk.injEq] at h
      exact Or.inr ⟨h.2.1.symm, h.2.2.symm⟩
    · simp only [Option.some.injEq, Prod.mk.injEq] at h
      exact Or.inl h.2.2.symm
    · simp only [Option.some.injEq, Prod.mk.injEq] at h
      exact Or.inl h.2.2.symm
    · simp only [Option.some.injEq, Prod.mk.injEq] at h
      exact Or.inl h.2.2.symm
    · simp only [Option.some.injEq, Prod.mk.injEq] at h
      exact Or.inr ⟨h.2.1.symm, h.2.2.symm⟩

theorem determine_by_scores_cases (d1 dm : Dict) (c : List Char) (q : ℚ)
    (h : determine_by_scores d1 = some (dm, c, q)) :
    dm = d1 ∧
    ((∃ s3 bb, categoryScores d1 = some s3 ∧ bestEntry s3 = some bb ∧
        0 < bb.2 ∧ q = min (bb.2 / 2) 1) ∨
      (c = lc (r"UNKNOWN") ∧ q = 0)) := by
  unfold determine_by_scores at h
  split at h
  · exact absurd h (by simp)
  · next s3 heq =>
    split at h
    · next bb heq2 =>
      simp only [Option.some.injEq, Prod.mk.injEq] at h
      refine ⟨h.1.symm, Or.inl ⟨s3, bb, heq, heq2, ?_, h.2.2.symm⟩⟩
      exact categoryScores_pos d1 s3 heq bb (bestEntry_mem s3 bb heq2)
    · next heq2 =>
      simp only [Option.some.injEq, Prod.mk.injEq] at h
      exact ⟨h.1.symm, Or.inr ⟨h.2.1.symm, h.2.2.symm⟩⟩

theorem determine_category_cases (d dm : Dict) (c : List Char) (q : ℚ)
    (h : determine_category d = some (dm, c, q)) :
    (0 ≤ q ∧ q ≤ 1) ∧
    (q = 19/20 ∨
      (∃ s3 bb, categoryScores dm = some s3 ∧ bestEntry s3 = some bb ∧
        0 < bb.2 ∧ q = min (bb.2 / 2) 1) ∨
      (c = lc (r"UNKNOWN") ∧ q = 0)) := by
  have hscores : ∀ d1, determine_by_scores d1 = some (dm, c, q) →
      (0 ≤ q ∧ q ≤ 1) ∧
      (q = 19/20 ∨
        (∃ s3 bb, categoryScores dm = some s3 ∧ bestEntry s3 = some bb ∧
          0 < bb.2 ∧ q = min (bb.2 / 2) 1) ∨
        (c = lc (r"UNKNOWN") ∧ q = 0)) := by
    intro d1 hds
    obtain ⟨hdm, hcase⟩ := determine_by_scores_cases d1 dm c q hds
    subst hdm
    rcases hcase with ⟨s3, bb, hcs, hb, hpos, hq⟩ | ⟨hc, hq⟩
    · refine ⟨⟨?_, ?_⟩, Or.inr (Or.inl ⟨s3, bb, hcs, hb, hpos, hq⟩)⟩
      · rw [hq]
        exact le_min (by positivity) (by norm_num)
      · rw [hq]
        exact min_le_right _ _
    · exact ⟨⟨by rw [hq], by rw [hq]; norm_num⟩, Or.inr (Or.inr ⟨hc, hq⟩)⟩
  unfold determine_category at h
  cases hs : categorize_by_sms_patterns d with
  | none => rw [hs] at h; exact absurd h (by simp)
  | some trip =>
    obtain ⟨d1, oc, sq⟩ := trip
    rw [hs] at h
    cases oc with
    | some c0 =>
      dsimp only at h
      split at h
      · next hcond =>
        simp only [Option.some.injEq, Prod.mk.injEq] at h
        obtain ⟨hdm, hc, hq⟩ := h
        have hq95 : q = 19/20 := by
          rcases sms_conf_cases d d1 (some c0) sq hs with hq' | ⟨hnone, _⟩
          · rw [← hq]; exact hq'
          · exact absurd hnone (by simp)
        refine ⟨⟨?_, ?_⟩, Or.inl hq95⟩ <;> (rw [hq95]; norm_num)
      · exact hscores d1 h
    | none =>
      dsimp only at h
      exact hscores d1 h


theorem catW_eval : categorize_transaction catW_now catW_in = some (catW_mut, catW_out) := by
  have hsms : categorize_by_sms_patterns catW_in
      = some (catW_mut, some (lc (r"DEPOSIT")), 19/20) := rfl
  unfold categorize_transaction determine_category
  rw [hsms]
  dsimp only
  rw [if_pos]
  · rfl
  · rw [Bool.and_eq_true, decide_eq_true_eq]
    exact ⟨rfl, by norm_num⟩

theorem sms_frame (d d1 : Dict) (oc : Option (List Char)) (sq : ℚ) (k : List Char)
    (h : categorize_by_sms_patterns d = some (d1, oc, sq))
    (hk : k ≠ lc (r"type") ∧ k ≠ lc (r"category") ∧ k ≠ lc (r"recipient_name") ∧
      k ≠ lc (r"personal_id") ∧ k ≠ lc (r"phone")) :
    dGet? d1 k = dGet? d k := by
  obtain ⟨h1, h2, h3, h4, h5⟩ := hk
  unfold categorize_by_sms_patterns at h
  split at h
  · simp only [Option.some.injEq, Prod.mk.injEq] at h
    rw [← h.1]
  · split at h
    · simp only [Option.some.injEq, Prod.mk.injEq] at h
      rw [← h.1]
    · exact absurd h (by simp)
  · split_ifs at h with e1 e2 e3 e4
    · simp only [Option.some.injEq, Prod.mk.injEq] at h
      rw [← h.1]
    · simp only [Option.some.injEq, Prod.mk.injEq] at h
      rw [← h.1]
      split
      · rw [dGet?_dSet_ne _ _ _ _ h4, dGet?_dSet_ne _ _ _ _ h3,
          dGet?_dSet_ne _ _ _ _ h2, dGet?_dSet_ne _ _ _ _ h1]
      · rw [dGet?_dSet_ne _ _ _ _ h3, dGet?_dSet_ne _ _ _ _ h2,
          dGet?_dSet_ne _ _ _ _ h1]
    · simp only [Option.some.injEq, Prod.mk.injEq] at h
      rw [← h.1]
      rw [dGet?_dSet_ne _ _ _ _ h1]
      split
      · split
        · rw [dGet?_dSet_ne _ _ _ _ h5, dGet?_dSet_ne _ _ _ _ h4,
            dGet?_dSet_ne _ _ _ _ h3]
        · rfl
      · rfl
    · simp only [Option.some.injEq, Prod.mk.injEq] at h
      rw [← h.1]
      rw [dGet?_dSet_ne _ _ _ _ h4, dGet?_dSet_ne _ _ _ _ h3,
        dGet?_dSet_ne _ _ _ _ h1]
    · simp only [Option.some.injEq, Prod.mk.injEq] at h
      rw [← h.1]

theorem determine_category_frame (d dm : Dict) (c : List Char) (q : ℚ) (k : List Char)
    (h : determine_category d = some (dm, c, q))
    (hk : k ≠ lc (r"type") ∧ k ≠ lc (r"category") ∧ k ≠ lc (r"recipient_name") ∧
      k ≠ lc (r"personal_id") ∧ k ≠ lc (r"phone")) :
    dGet? dm k = dGet? d k := by
  unfold determine_category at h
  cases hs : categorize_by_sms_patterns d with
  | none => rw [hs] at h; exact absurd h (by simp)
  | some trip =>
    obtain ⟨d1, oc, sq⟩ := trip
    rw [hs] at h
    have hfr : dGet? d1 k = dGet? d k := sms_frame d d1 oc sq k hs hk
    cases oc with
    | some c0 =>
      dsimp only at h
      split at h
      · simp only [Option.some.injEq, Prod.mk.injEq] at h
        rw [← h.1]; exact hfr
      · obtain ⟨hdm, _⟩ := determine_by_scores_cases d1 dm c q h
        rw [hdm]; exact hfr
    | none =>
      dsimp only at h
      obtain ⟨hdm, _⟩ := determine_by_scores_cases d1 dm c q h
      rw [hdm]; exact hfr

/-- C9.  Categorizer output invariant: any dictionary produced by
`categorize_transaction` carries a category string and a confidence
value under the keys `category` and `category_confidence`; the
confidence lies in [0,1], and it is 19/20 = 0.95 exactly when the
special SMS-pattern branch decided, `min (best_score / 2) 1` (with a
strictly positive best score) when the keyword/amount/phone scores
decided, and 0 with category UNKNOWN when no rule scored above zero. -/
theorem categorizer_confidence_invariant (now : List Char) (d dm out : Dict)
    (h : categorize_transaction now d = some (dm, out)) :
    ∃ c q, dGet? out (lc (r"category")) = some (PyVal.vStr c) ∧
      dGet? out (lc (r"category_confidence")) = some (PyVal.vNum q) ∧
      0 ≤ q ∧ q ≤ 1 ∧
      (q = 19/20 ∨
        (∃ s3 bb, categoryScores dm = some s3 ∧ bestEntry s3 = some bb ∧
          0 < bb.2 ∧ q = min (bb.2 / 2) 1) ∨
        (c = lc (r"UNKNOWN") ∧ q = 0)) := by
  unfold categorize_transaction at h
  dsimp only at h
  cases hdc : determine_category d with
  | none => rw [hdc] at h; exact absurd h (by simp)
  | some trip =>
    obtain ⟨dm1, c, q⟩ := trip
    rw [hdc] at h
    simp only [Option.some.injEq, Prod.mk.injEq] at h
    obtain ⟨hdm, hout⟩ := h
    obtain ⟨⟨hq0, hq1⟩, htri⟩ := determine_category_cases d dm1 c q hdc
    rw [hdm] at htri
    refine ⟨c, q, ?_, ?_, hq0, hq1, htri⟩
    · rw [← hout, dGet?_dSet_ne _ _ _ _ (by decide),
        dGet?_dSet_ne _ _ _ _ (by decide), dGet?_dSet_self]
    · rw [← hout, dGet?_dSet_ne _ _ _ _ (by decide), dGet?_dSet_self]

theorem categorizer_confidence_invariant_witness :
    ∃ c q, dGet? catW_out (lc (r"category")) = some (PyVal.vStr c) ∧
      dGet? catW_out (lc (r"category_confidence")) = some (PyVal.vNum q) ∧
      0 ≤ q ∧ q ≤ 1 ∧
      (q = 19/20 ∨
        (∃ s3 bb, categoryScores catW_mut = some s3 ∧ bestEntry s3 = some bb ∧
          0 < bb.2 ∧ q = min (bb.2 / 2) 1) ∨
        (c = lc (r"UNKNOWN") ∧ q = 0)) :=
  categorizer_confidence_invariant catW_now catW_in catW_mut catW_out catW_eval

/-- C10.  Categorizer input mutation: the first conjunct is the frame
property — any key of the input other than `type`, `category`,
`recipient_name`, `personal_id` and `phone` is left unchanged in the
caller's dictionary; the second conjunct exhibits an input (a deposit
SMS body) on which `categorize_transaction` really does write into the
caller's dictionary in place: `type` was absent before the call and
holds the string Deposit afterwards. -/
theorem categorizer_input_mutation :
    (∀ now d dm out k, categorize_transaction now d = some (dm, out) →
      k ≠ lc (r"type") → k ≠ lc (r"category") → k ≠ lc (r"recipient_name") →
      k ≠ lc (r"personal_id") → k ≠ lc (r"phone") →
      dGet? dm k = dGet? d k) ∧
    (∃ dm out, categorize_transaction catW_now catW_in = some (dm, out) ∧
      dGet? catW_in (lc (r"type")) = none ∧
      dGet? dm (lc (r"type")) = some (PyVal.vStr (lc (r"Deposit")))) := by
  constructor
  · intro now d dm out k h h1 h2 h3 h4 h5
    unfold categorize_transaction at h
    dsimp only at h
    cases hdc : determine_category d with
    | none => rw [hdc] at h; exact absurd h (by simp)
    | some trip =>
      obtain ⟨dm1, c, q⟩ := trip
      rw [hdc] at h
      simp only [Option.some.injEq, Prod.mk.injEq] at h
      rw [← h.1]
      exact determine_category_frame d dm1 c q k hdc ⟨h1, h2, h3, h4, h5⟩
  · exact ⟨catW_mut, catW_out, catW_eval, rfl, rfl⟩

theorem categorizer_input_mutation_witness :
    dGet? catW_mut (lc (r"original_data")) = dGet? catW_in (lc (r"original_data")) :=
  categorizer_input_mutation.1 catW_now catW_in catW_mut catW_out
    (lc (r"original_data")) catW_eval
    (by decide) (by decide) (by decide) (by decide) (by decide)
